import Mathlib

/-!
Finance chatbot front-end: the chat session hook and its transport client

A shallow embedding of `frontend/src/hooks/useChat.js`, of the axios clients
of `frontend/src/api/chatApi.js` and `frontend/src/api/newsApi.js`, of
`frontend/src/hooks/useWebSocket.js`, of the article filter of
`frontend/src/components/news/NewsDashboard.js` and of
`frontend/src/utils/dateUtils.js`.

* React state (`messages`, `sources`, `isLoading`), the `conversationIdRef`
  ref, the toasts raised, the query keys invalidated and the browser-side
  client (localStorage, `window.location.href`, requests issued, console)
  are fields of an explicit state that every handler takes and returns.
* Everything the handlers read from outside (clock readings of `Date.now()`
  and `new Date().toISOString()`, the outcome of the HTTP round trip) is an
  explicit argument.
* A rejected promise is `Except.error`, a resolved one is `Except.ok`.
* Host and library functions the source calls but does not define
  (`String.prototype.toLowerCase`, `Date.parse`, the two `date-fns` functions)
  are parameters.
-/

namespace FinanceChat

/-! ## Data model -/

/-- A retrieval citation as carried by the server's JSON. -/
structure Source where
  content : String
  metadata : List (String × String)
  url : Option String
deriving DecidableEq, Repr

/-- One chat message object. `id` is a JavaScript number (`Date.now()`, an
integer count of milliseconds); `sources` and `confidence` are `none` when the
key is missing or `undefined`. -/
structure Message where
  id : Int
  content : String
  message_type : String
  timestamp : String
  sources : Option (List Source)
  confidence : Option Rat
deriving DecidableEq, Repr

/-- Body of a successful `POST /chat/send`. -/
structure SendResponse where
  message : String
  timestamp : String
  sources : Option (List Source)
  confidence : Option Rat
  conversation_id : Option String
deriving DecidableEq, Repr

/-- Body of a successful `GET /chat/history/<id>`. -/
structure HistoryResponse where
  messages : Option (List Message)
  sources : Option (List Source)
deriving DecidableEq, Repr

/-- The `response` member of an axios error: HTTP status and `data.detail`. -/
structure ErrorResponse where
  status : Nat
  detail : Option String
deriving DecidableEq, Repr

/-- The error axios rejects with; `response` is `none` for a timeout or an
unreachable server. -/
structure AxiosError where
  message : String
  response : Option ErrorResponse
deriving DecidableEq, Repr

/-- A JavaScript `Error` built by `new Error(message)`. -/
structure JsError where
  message : String
deriving DecidableEq, Repr

/-- A `react-hot-toast` notification. -/
inductive Toast where
  | success (text : String)
  | error (text : String)
deriving DecidableEq, Repr

/-- Request payloads of the chat, RAG and news endpoints. -/
inductive Body where
  | empty
  | chatSend (message : String) (conversation_id : Option String)
  | ragQuery (query : String) (top_k : Int) (include_sources : Bool)
  | formData (file : String)
  | addText (text : String) (metadata : Option (List (String × String)))
  | newsSearch (fields : List (String × String))
deriving DecidableEq, Repr

/-- The axios request config as seen by the request interceptor. -/
structure RequestConfig where
  method : String
  url : String
  data : Body
  headers : List (String × String)
  params : List (String × String) := []
deriving DecidableEq, Repr

/-- A react-query key passed to `invalidateQueries`. -/
inductive QueryKey where
  | chatHistory
  | chatHistoryOf (conversationId : Option String)
deriving DecidableEq, Repr

/-- Browser-side state the axios client touches. -/
structure Client where
  localStorage : List (String × String)
  locationHref : String
  requests : List RequestConfig
  console : List (String × String)
deriving DecidableEq, Repr

/-- State of one `useChat` instance together with its effects log. -/
structure ChatState where
  messages : List Message
  sources : List Source
  isLoading : Bool
  conversationId : Option String
  toasts : List Toast
  invalidated : List QueryKey
  client : Client
deriving DecidableEq, Repr

/-- What one `sendMessage` call reads from outside the hook. -/
structure SendEnv where
  mutateNow : Int
  mutateIso : String
  successNow : Int
  outcome : Except AxiosError SendResponse

/-! ## JavaScript primitives used by the source -/

/-- Truthiness of a possibly missing string: `null`, `undefined` and `''` are
falsy. -/
def truthy (v : Option String) : Bool :=
  match v with
  | some s => s != ""
  | none => false

/-- Template-literal interpolation of a possibly `null` string. -/
def interpolate (v : Option String) : String :=
  match v with
  | some s => s
  | none => "null"

/-- White space and line terminators stripped by `String.prototype.trim`. -/
def isJsWhitespace (c : Char) : Bool :=
  c.toNat ∈ [0x9, 0xA, 0xB, 0xC, 0xD, 0x20, 0xA0, 0x1680, 0x2028, 0x2029,
    0x202F, 0x205F, 0x3000, 0xFEFF] || (0x2000 ≤ c.toNat && c.toNat ≤ 0x200A)

/-- `String.prototype.trim`: strip white space from both ends. -/
def jsTrim (s : String) : String :=
  String.mk ((s.data.dropWhile isJsWhitespace).reverse.dropWhile isJsWhitespace).reverse

/-- `localStorage.getItem(key)`. -/
def getItem (store : List (String × String)) (key : String) : Option String :=
  store.lookup key

/-- `localStorage.removeItem(key)`. -/
def removeItem (store : List (String × String)) (key : String) : List (String × String) :=
  store.filter (fun entry => entry.1 != key)

/-- Assignment `headers[name] = value`. -/
def setHeader (headers : List (String × String)) (name value : String) :
    List (String × String) :=
  headers.filter (fun entry => entry.1 != name) ++ [(name, value)]

/-! ## `api/chatApi.js` -/

/-- Headers of the axios instance created by `axios.create`. -/
def defaultHeaders : List (String × String) := [("Content-Type", "application/json")]

/-- Request interceptor: attach the bearer token when one is stored. -/
def requestInterceptor (c : Client) (config : RequestConfig) : RequestConfig :=
  if truthy (getItem c.localStorage "authToken") then
    { config with
      headers := setHeader config.headers "Authorization"
        ("Bearer " ++ interpolate (getItem c.localStorage "authToken")) }
  else config

/-- Response interceptor, rejection branch: on a 401 drop the token and go to
the login route; always re-reject with the same error. -/
def responseRejected (c : Client) (error : AxiosError) : Client × AxiosError :=
  if error.response.map (fun r => r.status) = some 401 then
    ({ c with
        localStorage := removeItem c.localStorage "authToken"
        locationHref := "/login" }, error)
  else (c, error)

/-- One call through the axios instance `api`: run the request interceptor,
issue the request, then run the response interceptor on what came back. -/
def apiRequest {α : Type} (c : Client) (config : RequestConfig)
    (outcome : Except AxiosError α) : Client × Except AxiosError α :=
  match outcome with
  | .ok data => ({ c with requests := c.requests ++ [requestInterceptor c config] }, .ok data)
  | .error error =>
    ((responseRejected
        { c with requests := c.requests ++ [requestInterceptor c config] } error).1,
      .error (responseRejected
        { c with requests := c.requests ++ [requestInterceptor c config] } error).2)

/-- The message of the `Error` an operation throws: server detail when truthy,
else the operation's own text. -/
def errorMessage (error : AxiosError) (generic : String) : String :=
  if truthy (error.response.bind (fun r => r.detail)) then
    interpolate (error.response.bind (fun r => r.detail))
  else generic

/-- The `catch` block shared by the chat operations. -/
def catchAndWrap {α : Type} (label generic : String)
    (r : Client × Except AxiosError α) : Client × Except JsError α :=
  match r.2 with
  | .ok response => (r.1, .ok response)
  | .error error =>
    ({ r.1 with console := r.1.console ++ [(label, error.message)] },
      .error { message := errorMessage error generic })

/-- `sendChatMessage(message, conversationId)`. -/
def sendChatMessage (c : Client) (message : String) (conversationId : Option String)
    (outcome : Except AxiosError SendResponse) : Client × Except JsError SendResponse :=
  catchAndWrap "Error sending chat message:" "Failed to send message"
    (apiRequest c
      { method := "post", url := "/chat/send",
        data := Body.chatSend message conversationId, headers := defaultHeaders }
      outcome)

/-- `getChatHistory(conversationId)`. -/
def getChatHistory (c : Client) (conversationId : Option String)
    (outcome : Except AxiosError (Option HistoryResponse)) :
    Client × Except JsError (Option HistoryResponse) :=
  catchAndWrap "Error fetching chat history:" "Failed to fetch chat history"
    (apiRequest c
      { method := "get", url := "/chat/history/" ++ interpolate conversationId,
        data := Body.empty, headers := defaultHeaders }
      outcome)

/-- `clearChatHistory(conversationId)`. -/
def clearChatHistory (c : Client) (conversationId : Option String)
    (outcome : Except AxiosError Unit) : Client × Except JsError Unit :=
  catchAndWrap "Error clearing chat history:" "Failed to clear chat history"
    (apiRequest c
      { method := "delete", url := "/chat/history/" ++ interpolate conversationId,
        data := Body.empty, headers := defaultHeaders }
      outcome)

/-- `getChatStats()`. -/
def getChatStats {α : Type} (c : Client) (outcome : Except AxiosError α) :
    Client × Except JsError α :=
  catchAndWrap "Error fetching chat stats:" "Failed to fetch chat statistics"
    (apiRequest c
      { method := "get", url := "/chat/stats", data := Body.empty, headers := defaultHeaders }
      outcome)

/-- `queryRAG(query, topK = 5, includeSources = true)`; `none` is an omitted
argument. -/
def queryRAG {α : Type} (c : Client) (query : String) (topK : Option Int)
    (includeSources : Option Bool) (outcome : Except AxiosError α) :
    Client × Except JsError α :=
  catchAndWrap "Error querying RAG:" "Failed to query RAG system"
    (apiRequest c
      { method := "post", url := "/rag/query",
        data := Body.ragQuery query (topK.getD 5) (includeSources.getD true),
        headers := defaultHeaders }
      outcome)

/-- `searchSimilar(query, topK = 5)`. -/
def searchSimilar {α : Type} (c : Client) (query : String) (topK : Option Int)
    (outcome : Except AxiosError α) : Client × Except JsError α :=
  catchAndWrap "Error searching similar documents:" "Failed to search documents"
    (apiRequest c
      { method := "get", url := "/rag/search", data := Body.empty, headers := defaultHeaders,
        params := [("query", query), ("top_k", toString (topK.getD 5))] }
      outcome)

/-- `getRAGStats()`. -/
def getRAGStats {α : Type} (c : Client) (outcome : Except AxiosError α) :
    Client × Except JsError α :=
  catchAndWrap "Error fetching RAG stats:" "Failed to fetch RAG statistics"
    (apiRequest c
      { method := "get", url := "/rag/stats", data := Body.empty, headers := defaultHeaders }
      outcome)

/-- `addDocumentToRAG(file)`. -/
def addDocumentToRAG {α : Type} (c : Client) (file : String)
    (outcome : Except AxiosError α) : Client × Except JsError α :=
  catchAndWrap "Error adding document to RAG:" "Failed to add document"
    (apiRequest c
      { method := "post", url := "/rag/add-documents", data := Body.formData file,
        headers := setHeader defaultHeaders "Content-Type" "multipart/form-data" }
      outcome)

/-- `addTextToRAG(text, metadata = null)`. -/
def addTextToRAG {α : Type} (c : Client) (text : String)
    (metadata : Option (List (String × String))) (outcome : Except AxiosError α) :
    Client × Except JsError α :=
  catchAndWrap "Error adding text to RAG:" "Failed to add text"
    (apiRequest c
      { method := "post", url := "/rag/add-text", data := Body.addText text metadata,
        headers := defaultHeaders }
      outcome)

/-- `clearRAG()`. -/
def clearRAG {α : Type} (c : Client) (outcome : Except AxiosError α) :
    Client × Except JsError α :=
  catchAndWrap "Error clearing RAG:" "Failed to clear RAG system"
    (apiRequest c
      { method := "delete", url := "/rag/clear", data := Body.empty, headers := defaultHeaders }
      outcome)

/-- `getRAGHealth()`. -/
def getRAGHealth {α : Type} (c : Client) (outcome : Except AxiosError α) :
    Client × Except JsError α :=
  catchAndWrap "Error checking RAG health:" "Failed to check RAG health"
    (apiRequest c
      { method := "get", url := "/rag/health", data := Body.empty, headers := defaultHeaders }
      outcome)

/-! ## `api/newsApi.js` -/

/-- Assignment `object[key] = value` on an object kept as a key-value list: an
existing key keeps its place. -/
def setKey (object : List (String × String)) (key value : String) : List (String × String) :=
  if object.any (fun entry => entry.1 == key) then
    object.map (fun entry => if entry.1 == key then (key, value) else entry)
  else object ++ [(key, value)]

/-- Object spread of `extra` over `base`. -/
def objectSpread (base extra : List (String × String)) : List (String × String) :=
  extra.foldl (fun acc entry => setKey acc entry.1 entry.2) base

/-- Request interceptor of the news client: the config goes through as is. -/
def newsRequestInterceptor (config : RequestConfig) : RequestConfig := config

/-- Response interceptor of the news client, rejection branch: log and reject
with the same error. -/
def newsResponseRejected (c : Client) (error : AxiosError) : Client × AxiosError :=
  ({ c with console := c.console ++ [("API Error:", error.message)] }, error)

/-- One call through the axios instance of `newsApi.js`. -/
def newsApiRequest {α : Type} (c : Client) (config : RequestConfig)
    (outcome : Except AxiosError α) : Client × Except AxiosError α :=
  match outcome with
  | .ok data => ({ c with requests := c.requests ++ [newsRequestInterceptor config] }, .ok data)
  | .error error =>
    ((newsResponseRejected
        { c with requests := c.requests ++ [newsRequestInterceptor config] } error).1,
      .error (newsResponseRejected
        { c with requests := c.requests ++ [newsRequestInterceptor config] } error).2)

/-- `newsApi.getLatestNews(params = {})`. -/
def getLatestNews {α : Type} (c : Client) (params : List (String × String))
    (outcome : Except AxiosError α) : Client × Except AxiosError α :=
  newsApiRequest c
    { method := "get", url := "/news/latest", data := Body.empty, headers := [],
      params := params } outcome

/-- `newsApi.getStockNews(symbol, params = {})`. -/
def getStockNews {α : Type} (c : Client) (symbol : String) (params : List (String × String))
    (outcome : Except AxiosError α) : Client × Except AxiosError α :=
  newsApiRequest c
    { method := "get", url := "/news/stock/" ++ symbol, data := Body.empty, headers := [],
      params := params } outcome

/-- `newsApi.getNewsSources()`. -/
def getNewsSources {α : Type} (c : Client) (outcome : Except AxiosError α) :
    Client × Except AxiosError α :=
  newsApiRequest c
    { method := "get", url := "/news/sources", data := Body.empty, headers := [] } outcome

/-- `newsApi.getNewsCategories()`. -/
def getNewsCategories {α : Type} (c : Client) (outcome : Except AxiosError α) :
    Client × Except AxiosError α :=
  newsApiRequest c
    { method := "get", url := "/news/categories", data := Body.empty, headers := [] } outcome

/-- `newsApi.searchNews(query, params = {})`. -/
def searchNews {α : Type} (c : Client) (query : String) (params : List (String × String))
    (outcome : Except AxiosError α) : Client × Except AxiosError α :=
  newsApiRequest c
    { method := "post", url := "/news/search",
      data := Body.newsSearch (objectSpread [("query", query)] params), headers := [] }
    outcome

/-! ## `hooks/useChat.js` -/

/-- State of a freshly mounted hook over a given browser client. -/
def initialState (c : Client) : ChatState :=
  { messages := [], sources := [], isLoading := false, conversationId := none,
    toasts := [], invalidated := [], client := c }

/-- `onSuccess` of the chat-history query. -/
def historyOnSuccess (s : ChatState) (data : Option HistoryResponse) : ChatState :=
  let s1 : ChatState :=
    match data.bind (fun d => d.messages) with
    | some ms => { s with messages := ms }
    | none => s
  match data.bind (fun d => d.sources) with
  | some srcs => { s1 with sources := srcs }
  | none => s1

/-- The optimistic user message built by `onMutate`. -/
def userMessageOf (message : String) (now : Int) (iso : String) : Message :=
  { id := now, content := message, message_type := "user", timestamp := iso,
    sources := none, confidence := none }

/-- `sendMessageMutation.onMutate`: returns the new state and the context. -/
def onMutate (s : ChatState) (message : String) (now : Int) (iso : String) :
    ChatState × Message :=
  ({ s with
      messages := s.messages ++ [userMessageOf message now iso]
      isLoading := true },
    userMessageOf message now iso)

/-- The assistant message built by `onSuccess`. -/
def aiMessageOf (response : SendResponse) (now : Int) : Message :=
  { id := now + 1, content := response.message, message_type := "bot",
    timestamp := response.timestamp, sources := response.sources,
    confidence := response.confidence }

/-- `sendMessageMutation.onSuccess`. -/
def onSuccess (s : ChatState) (response : SendResponse) (now : Int) : ChatState :=
  let s1 : ChatState := { s with messages := s.messages ++ [aiMessageOf response now] }
  let s2 : ChatState :=
    match response.sources with
    | some srcs => { s1 with sources := s1.sources ++ srcs }
    | none => s1
  let s3 : ChatState :=
    if truthy response.conversation_id then
      { s2 with conversationId := response.conversation_id }
    else s2
  { s3 with
    isLoading := false
    invalidated := s3.invalidated ++ [QueryKey.chatHistoryOf s3.conversationId] }

/-- `sendMessageMutation.onError`. -/
def onError (s : ChatState) (error : JsError) (context : Message) : ChatState :=
  { s with
    messages := s.messages.filter (fun msg => msg.id != context.id)
    isLoading := false
    toasts := s.toasts ++ [Toast.error "Failed to send message. Please try again."]
    client := { s.client with console := s.client.console ++ [("Chat error:", error.message)] } }

/-- `sendMessageMutation.mutateAsync(message)`: `onMutate`, the mutation
function, then `onSuccess` or `onError`; the promise settles with the data or
the error. -/
def sendMutateAsync (s : ChatState) (message : String) (env : SendEnv) :
    ChatState × Except JsError SendResponse :=
  let pending := onMutate s message env.mutateNow env.mutateIso
  let called := sendChatMessage pending.1.client message pending.1.conversationId env.outcome
  match called.2 with
  | .ok response =>
    (onSuccess { pending.1 with client := called.1 } response env.successNow, .ok response)
  | .error error =>
    (onError { pending.1 with client := called.1 } error pending.2, .error error)

/-- `sendMessage(message)` of the hook. -/
def sendMessage (s : ChatState) (message : String) (env : SendEnv) :
    ChatState × Except JsError Unit :=
  if jsTrim message = "" then (s, .ok ())
  else
    match (sendMutateAsync s message env).2 with
    | .ok _ => ((sendMutateAsync s message env).1, .ok ())
    | .error error => ((sendMutateAsync s message env).1, .error error)

/-- `clearChatMutation.onSuccess`. -/
def clearOnSuccess (s : ChatState) : ChatState :=
  { s with
    messages := []
    sources := []
    conversationId := none
    invalidated := s.invalidated ++ [QueryKey.chatHistory]
    toasts := s.toasts ++ [Toast.success "Chat history cleared"] }

/-- `clearChatMutation.onError`. -/
def clearOnError (s : ChatState) (error : JsError) : ChatState :=
  { s with
    toasts := s.toasts ++ [Toast.error "Failed to clear chat history"]
    client :=
      { s.client with console := s.client.console ++ [("Clear chat error:", error.message)] } }

/-- `clearChat()` of the hook: `clearChatMutation.mutateAsync()` and re-throw. -/
def clearChat (s : ChatState) (outcome : Except AxiosError Unit) :
    ChatState × Except JsError Unit :=
  let called := clearChatHistory s.client s.conversationId outcome
  match called.2 with
  | .ok _ => (clearOnSuccess { s with client := called.1 }, .ok ())
  | .error error => (clearOnError { s with client := called.1 } error, .error error)

/-- `addSystemMessage(content)`. -/
def addSystemMessage (s : ChatState) (content : String) (now : Int) (iso : String) :
    ChatState :=
  { s with
    messages := s.messages ++
      [{ id := now, content := content, message_type := "system", timestamp := iso,
         sources := none, confidence := none }] }

/-- `removeMessage(messageId)`. -/
def removeMessage (s : ChatState) (messageId : Int) : ChatState :=
  { s with messages := s.messages.filter (fun msg => msg.id != messageId) }

/-- `setConversationId(id)`. -/
def setConversationId (s : ChatState) (id : Option String) : ChatState :=
  { s with conversationId := id }

/-- The `updates` argument of `updateMessage`: `none` is a key the object does
not have. -/
structure MessageUpdates where
  id : Option Int := none
  content : Option String := none
  message_type : Option String := none
  timestamp : Option String := none
  sources : Option (Option (List Source)) := none
  confidence : Option (Option Rat) := none
deriving DecidableEq, Repr

/-- The object spread of `msg` followed by `updates`. -/
def applyUpdates (msg : Message) (updates : MessageUpdates) : Message :=
  { id := updates.id.getD msg.id
    content := updates.content.getD msg.content
    message_type := updates.message_type.getD msg.message_type
    timestamp := updates.timestamp.getD msg.timestamp
    sources := updates.sources.getD msg.sources
    confidence := updates.confidence.getD msg.confidence }

/-- `updateMessage(messageId, updates)`. -/
def updateMessage (s : ChatState) (messageId : Int) (updates : MessageUpdates) : ChatState :=
  { s with
    messages := s.messages.map
      (fun msg => if msg.id = messageId then applyUpdates msg updates else msg) }

/-- A sequence of `sendMessage` calls, each settled before the next starts. -/
def runSends (s : ChatState) (sends : List (String × SendEnv)) : ChatState :=
  sends.foldl (fun acc call => (sendMessage acc call.1 call.2).1) s

/-- The `sources` array a send's reply carries, empty when it carries none. -/
def replySources (env : SendEnv) : List Source :=
  match env.outcome with
  | .ok response => response.sources.getD []
  | .error _ => []

/-! ## `hooks/useWebSocket.js` -/

/-- State of one `useWebSocket` instance: the two React states, whether
`wsRef.current` holds a socket, the frames handed to `ws.send`, the console. -/
structure WsState where
  isConnected : Bool
  connectionStatus : String
  hasSocket : Bool
  sent : List String
  console : List String
deriving DecidableEq, Repr

/-- What can happen to a mounted hook: the socket's `open`, `close`, `error`
and `message` events (a message with whether its data parses as JSON), and a
call of the returned `sendMessage` with the text `JSON.stringify(message)`. -/
inductive WsEvent where
  | open
  | close
  | error
  | message (data : String) (parses : Bool)
  | send (frame : String)
deriving DecidableEq, Repr

/-- State of the hook before the effect runs. -/
def wsInitial : WsState :=
  { isConnected := false, connectionStatus := "disconnected", hasSocket := false,
    sent := [], console := [] }

/-- The effect's `connect()`: `new WebSocket(url)` either returns a socket,
stored in `wsRef`, or throws. -/
def wsConnect (s : WsState) (constructed : Bool) : WsState :=
  if constructed then { s with hasSocket := true }
  else
    { s with
      console := s.console ++ ["Failed to connect to WebSocket:"]
      connectionStatus := "error" }

/-- `ws.onopen`. -/
def wsOnOpen (s : WsState) : WsState :=
  { s with isConnected := true, connectionStatus := "connected" }

/-- `ws.onclose`. -/
def wsOnClose (s : WsState) : WsState :=
  { s with isConnected := false, connectionStatus := "disconnected" }

/-- `ws.onerror`. -/
def wsOnError (s : WsState) : WsState :=
  { s with console := s.console ++ ["WebSocket error:"], connectionStatus := "error" }

/-- `ws.onmessage`. -/
def wsOnMessage (s : WsState) (data : String) (parses : Bool) : WsState :=
  if parses then { s with console := s.console ++ ["Received message:" ++ data] }
  else { s with console := s.console ++ ["Failed to parse WebSocket message:"] }

/-- `sendMessage(message)` of the WebSocket hook. -/
def wsSendMessage (s : WsState) (frame : String) : WsState :=
  if s.hasSocket && s.isConnected then { s with sent := s.sent ++ [frame] } else s

/-- One event; socket events need a socket to fire on. -/
def wsStep (s : WsState) (e : WsEvent) : WsState :=
  match e with
  | .open => if s.hasSocket then wsOnOpen s else s
  | .close => if s.hasSocket then wsOnClose s else s
  | .error => if s.hasSocket then wsOnError s else s
  | .message data parses => if s.hasSocket then wsOnMessage s data parses else s
  | .send frame => wsSendMessage s frame

/-- Mount the hook, then let the events happen in order. -/
def wsRun (constructed : Bool) (events : List WsEvent) : WsState :=
  events.foldl wsStep (wsConnect wsInitial constructed)

/-- What holds of the WebSocket hook's state after every event: `isConnected`
needs a socket and a status of `connected` or `error`, and status `connected`
needs `isConnected`. -/
def WsInv (s : WsState) : Prop :=
  (s.isConnected = true →
      s.hasSocket = true ∧
        (s.connectionStatus = "connected" ∨ s.connectionStatus = "error")) ∧
    (s.connectionStatus = "connected" → s.isConnected = true)

/-! ## `components/news/NewsDashboard.js` -/

/-- One entry of the dashboard's catalogue. -/
structure Article where
  id : Nat
  title : String
  description : String
  url : String
  published_at : String
  source : String
  sentiment : String
  category : String
deriving DecidableEq, Repr

/-- The `mockNews` array. -/
def mockNews : List Article :=
  [{ id := 1,
     title := "Tech Stocks Rally on Strong Earnings Reports",
     description := "Major technology companies report better-than-expected quarterly results, driving market optimism and pushing indices higher.",
     url := "https://example.com/tech-rally",
     published_at := "2024-08-04T10:00:00Z",
     source := "Reuters", sentiment := "positive", category := "technology" },
   { id := 2,
     title := "Federal Reserve Signals Potential Rate Changes",
     description := "The Fed indicates possible adjustments to interest rates in response to economic indicators and inflation data.",
     url := "https://example.com/fed-rates",
     published_at := "2024-08-04T09:30:00Z",
     source := "Bloomberg", sentiment := "neutral", category := "economy" },
   { id := 3,
     title := "Oil Prices Decline Amid Supply Concerns",
     description := "Crude oil prices fall as concerns about global supply and demand dynamics weigh on market sentiment.",
     url := "https://example.com/oil-prices",
     published_at := "2024-08-04T08:45:00Z",
     source := "MarketWatch", sentiment := "negative", category := "energy" },
   { id := 4,
     title := "Healthcare Sector Shows Strong Growth",
     description := "Healthcare companies demonstrate robust performance with innovative treatments and strong pipeline developments.",
     url := "https://example.com/healthcare-growth",
     published_at := "2024-08-04T07:15:00Z",
     source := "CNBC", sentiment := "positive", category := "healthcare" },
   { id := 5,
     title := "Cryptocurrency Market Volatility Continues",
     description := "Digital assets experience significant price swings as regulatory developments and market sentiment remain uncertain.",
     url := "https://example.com/crypto-volatility",
     published_at := "2024-08-04T06:30:00Z",
     source := "Yahoo Finance", sentiment := "neutral", category := "crypto" }]

/-- `haystack.includes(needle)`: the needle occurs as a contiguous run. -/
def includes (haystack needle : String) : Bool :=
  decide (needle.data <:+: haystack.data)

/-- The callback of `mockNews.filter`. `String.prototype.toLowerCase` is the
host's Unicode lower-casing and is taken as a parameter. -/
def matchesArticle (toLowerCase : String → String) (searchQuery selectedCategory : String)
    (article : Article) : Bool :=
  let matchesSearch :=
    includes (toLowerCase article.title) (toLowerCase searchQuery) ||
      includes (toLowerCase article.description) (toLowerCase searchQuery)
  let matchesCategory := selectedCategory == "all" || article.category == selectedCategory
  matchesSearch && matchesCategory

/-- The `filteredNews` array. -/
def filteredNews (toLowerCase : String → String) (searchQuery selectedCategory : String) :
    List Article :=
  mockNews.filter (matchesArticle toLowerCase searchQuery selectedCategory)

/-- Assignment `acc[key] = value` on the counters object: an existing key
keeps its place. -/
def setCount (acc : List (String × Nat)) (key : String) (value : Nat) : List (String × Nat) :=
  match acc with
  | [] => [(key, value)]
  | entry :: rest =>
    if entry.1 == key then (key, value) :: rest else entry :: setCount rest key value

/-- Reading `acc[key] || 0`. -/
def counter (acc : List (String × Nat)) (key : String) : Nat :=
  (acc.lookup key).getD 0

/-- The reducer of `sentimentStats`. -/
def countSentiment (acc : List (String × Nat)) (article : Article) : List (String × Nat) :=
  setCount acc article.sentiment (counter acc article.sentiment + 1)

/-- The `sentimentStats` object computed from the filtered articles. -/
def sentimentStats (filtered : List Article) : List (String × Nat) :=
  filtered.foldl countSentiment [("positive", 0), ("negative", 0), ("neutral", 0)]

/-! ## `utils/dateUtils.js` -/

/-- What a caller can hand to the date helpers: `null`, `undefined`, a string,
a number of milliseconds, or a `Date` object (`none` is Invalid Date). -/
inductive DateArg where
  | null
  | undefined
  | text (value : String)
  | millis (value : Int)
  | dateObject (time : Option Int)
deriving DecidableEq, Repr

/-- Falsiness `!value`: `null`, `undefined`, `''` and `0` are falsy, a `Date`
object never is. -/
def isFalsy (value : DateArg) : Bool :=
  match value with
  | .null => true
  | .undefined => true
  | .text t => t == ""
  | .millis n => n == 0
  | .dateObject _ => false

/-- The two functions imported from `date-fns`; each either returns the text
or throws. `formatDistanceToNow` also gets the clock it reads. -/
structure DateFns where
  format : Option Int → String → Except String String
  formatDistanceToNow : Option Int → Int → Except String String

/-- The time value of `new Date(value)`, `none` for Invalid Date. Parsing of
strings is the host's `Date.parse`, taken as a parameter. -/
def newDate (parseText : String → Option Int) (value : DateArg) : Option Int :=
  match value with
  | .null => some 0
  | .undefined => none
  | .text t => parseText t
  | .millis n => if n.natAbs ≤ 8640000000000000 then some n else none
  | .dateObject time => time

/-- The test `diffInHours < 24`; a comparison with NaN is false. -/
def withinDay (now : Int) (date : Option Int) : Bool :=
  match date with
  | some time => decide (now - time < 24 * (1000 * 60 * 60))
  | none => false

/-- `formatTimestamp(timestamp)`: the text returned and what was logged. -/
def formatTimestamp (lib : DateFns) (parseText : String → Option Int) (now : Int)
    (timestamp : DateArg) : String × List String :=
  if isFalsy timestamp then ("", [])
  else
    match
      (if withinDay now (newDate parseText timestamp) then
        lib.formatDistanceToNow (newDate parseText timestamp) now
      else lib.format (newDate parseText timestamp) "MMM d, yyyy HH:mm") with
    | .ok text => (text, [])
    | .error thrown => ("", ["Error formatting timestamp: " ++ thrown])

/-- `formatDate(date, formatString = 'yyyy-MM-dd')`; `none` is an omitted
format string. -/
def formatDate (lib : DateFns) (parseText : String → Option Int) (date : DateArg)
    (formatString : Option String) : String × List String :=
  if isFalsy date then ("", [])
  else
    match lib.format (newDate parseText date) (formatString.getD "yyyy-MM-dd") with
    | .ok text => (text, [])
    | .error thrown => ("", ["Error formatting date: " ++ thrown])

/-- `formatDateTime(date)`. -/
def formatDateTime (lib : DateFns) (parseText : String → Option Int) (date : DateArg) :
    String × List String :=
  formatDate lib parseText date (some "yyyy-MM-dd HH:mm:ss")

/-! ## Sample values -/

/-- A browser client holding a token, sitting on the chat route. -/
def sampleClient : Client :=
  { localStorage := [("theme", "dark"), ("authToken", "tok")], locationHref := "/chat",
    requests := [], console := [] }

/-- The reply of the `Hello` scenario. -/
def sampleResponse (T : String) : SendResponse :=
  { message := "Hi!", timestamp := T, sources := some [], confidence := none,
    conversation_id := some "c1" }

/-- A request that timed out: axios rejects without a response. -/
def timeoutError : AxiosError :=
  { message := "timeout of 30000ms exceeded", response := none }

/-- A rejected request with the given HTTP status and no detail. -/
def statusError (status : Nat) : AxiosError :=
  { message := "Request failed", response := some { status := status, detail := none } }

/-- A session that already holds one system message with id 1000. -/
def welcomedState : ChatState :=
  addSystemMessage (initialState sampleClient) "Welcome" 1000 "2024-01-01T00:00:01.000Z"

/-- A session holding two messages, a source and a conversation id. -/
def busyState : ChatState :=
  { messages :=
      [userMessageOf "Hello" 1 "2024-01-01T00:00:00.001Z", aiMessageOf (sampleResponse "T") 2],
    sources := [{ content := "10-K", metadata := [("origin", "sec")], url := none }],
    isLoading := false, conversationId := some "c1", toasts := [], invalidated := [],
    client := sampleClient }

/-- A rejected request whose body carries the given `detail`. -/
def detailError (status : Nat) (detail : String) : AxiosError :=
  { message := "Request failed",
    response := some { status := status, detail := some detail } }

/-- A config whose caller already set two headers. -/
def sampleConfig : RequestConfig :=
  { method := "get", url := "/chat/stats", data := Body.empty,
    headers := [("Content-Type", "application/json"), ("X-Trace", "7")] }

/-- Two sends, each settled before the next, on strictly increasing clock
readings 1000, 1001, 1002, 1003. -/
def twoSends : List (String × SendEnv) :=
  [("a", ⟨1000, "2024-01-01T00:00:01.000Z", 1001, .ok (sampleResponse "T1")⟩),
   ("b", ⟨1002, "2024-01-01T00:00:01.002Z", 1003, .ok (sampleResponse "T2")⟩)]

/-- A reply that cites one source. -/
def citedResponse : SendResponse :=
  { message := "See the filing.", timestamp := "T3",
    sources := some [{ content := "10-Q", metadata := [], url := some "https://sec.gov" }],
    confidence := some (9 / 10), conversation_id := none }

/-- Lower-casing of the letters `A` to `Z`, enough for the catalogue. -/
def asciiLower (text : String) : String :=
  String.mk (text.data.map Char.toLower)

/-- A stand-in for `date-fns`: both functions throw on Invalid Date. -/
def sampleDateFns : DateFns :=
  { format := fun date pattern =>
      match date with
      | some time => .ok (pattern ++ "@" ++ toString time)
      | none => .error "Invalid time value"
    formatDistanceToNow := fun date now =>
      match date with
      | some time => .ok (toString ((now - time) / 60000) ++ " minutes ago")
      | none => .error "Invalid time value" }

/-- A stand-in for `Date.parse` that knows one ISO string. -/
def sampleParse (text : String) : Option Int :=
  if text = "2024-08-04T10:00:00Z" then some 1722765600000 else none

/-- Two sends in flight, with a system message added in the same millisecond
as the first: the state after the appends, before either send settles. -/
def interleavedState : ChatState :=
  (onMutate
    (addSystemMessage
      (onMutate (initialState sampleClient) "first" 1000 "2024-01-01T00:00:01.000Z").1
      "Connecting" 1000 "2024-01-01T00:00:01.000Z")
    "second" 1001 "2024-01-01T00:00:01.001Z").1

/-! ## Supporting lemmas -/

theorem jsTrim_of_all_whitespace (message : String)
    (h : ∀ ch ∈ message.data, isJsWhitespace ch = true) : jsTrim message = "" := by
  have hdrop : message.data.dropWhile isJsWhitespace = [] := by
    rw [List.dropWhile_eq_nil_iff]
    exact h
  simp [jsTrim, hdrop]

theorem responseRejected_snd (c : Client) (error : AxiosError) :
    (responseRejected c error).2 = error := by
  unfold responseRejected
  split <;> rfl

theorem sendChatMessage_ok (c : Client) (message : String) (cid : Option String)
    (r : SendResponse) :
    (sendChatMessage c message cid (.ok r)).2 = .ok r := by
  simp [sendChatMessage, catchAndWrap, apiRequest]

theorem sendChatMessage_error (c : Client) (message : String) (cid : Option String)
    (error : AxiosError) :
    (sendChatMessage c message cid (.error error)).2 =
      .error { message := errorMessage error "Failed to send message" } := by
  simp [sendChatMessage, catchAndWrap, apiRequest, responseRejected_snd]

theorem sendMutateAsync_ok (s : ChatState) (message : String) (env : SendEnv)
    (r : SendResponse) (hok : env.outcome = .ok r) :
    sendMutateAsync s message env =
      (onSuccess
        { (onMutate s message env.mutateNow env.mutateIso).1 with
          client := (sendChatMessage s.client message s.conversationId (.ok r)).1 }
        r env.successNow, .ok r) := by
  simp [sendMutateAsync, hok, sendChatMessage_ok, onMutate]

theorem sendMutateAsync_error (s : ChatState) (message : String) (env : SendEnv)
    (error : AxiosError) (herr : env.outcome = .error error) :
    sendMutateAsync s message env =
      (onError
        { (onMutate s message env.mutateNow env.mutateIso).1 with
          client := (sendChatMessage s.client message s.conversationId (.error error)).1 }
        { message := errorMessage error "Failed to send message" }
        (userMessageOf message env.mutateNow env.mutateIso),
       .error { message := errorMessage error "Failed to send message" }) := by
  simp [sendMutateAsync, herr, sendChatMessage_error, onMutate]

theorem sendMessage_ok (s : ChatState) (message : String) (env : SendEnv)
    (r : SendResponse) (hmsg : jsTrim message ≠ "") (hok : env.outcome = .ok r) :
    sendMessage s message env =
      (onSuccess
        { (onMutate s message env.mutateNow env.mutateIso).1 with
          client := (sendChatMessage s.client message s.conversationId (.ok r)).1 }
        r env.successNow, .ok ()) := by
  simp [sendMessage, hmsg, sendMutateAsync_ok s message env r hok]

theorem sendMessage_error (s : ChatState) (message : String) (env : SendEnv)
    (error : AxiosError) (hmsg : jsTrim message ≠ "") (herr : env.outcome = .error error) :
    sendMessage s message env =
      (onError
        { (onMutate s message env.mutateNow env.mutateIso).1 with
          client := (sendChatMessage s.client message s.conversationId (.error error)).1 }
        { message := errorMessage error "Failed to send message" }
        (userMessageOf message env.mutateNow env.mutateIso),
       .error { message := errorMessage error "Failed to send message" }) := by
  simp [sendMessage, hmsg, sendMutateAsync_error s message env error herr]

theorem onSuccess_messages (s : ChatState) (r : SendResponse) (now : Int) :
    (onSuccess s r now).messages = s.messages ++ [aiMessageOf r now] := by
  unfold onSuccess
  cases r.sources <;> cases truthy r.conversation_id <;> simp

theorem sendMessage_ok_messages (s : ChatState) (message : String)
    (env : SendEnv) (r : SendResponse)
    (hmsg : jsTrim message ≠ "") (hok : env.outcome = .ok r) :
    (sendMessage s message env).1.messages =
      s.messages ++
        [userMessageOf message env.mutateNow env.mutateIso, aiMessageOf r env.successNow] := by
  rw [sendMessage_ok s message env r hmsg hok]
  simp [onSuccess_messages, onMutate]

theorem onSuccess_conversationId (s : ChatState) (r : SendResponse) (now : Int) :
    (onSuccess s r now).conversationId =
      if truthy r.conversation_id then r.conversation_id else s.conversationId := by
  unfold onSuccess
  cases r.sources <;> cases truthy r.conversation_id <;> simp

theorem filter_ne_id_append_fresh (prior : List Message) (m : Message)
    (hfresh : ∀ x ∈ prior, x.id ≠ m.id) :
    (prior ++ [m]).filter (fun msg => msg.id != m.id) = prior := by
  rw [List.filter_append]
  have h1 : prior.filter (fun msg => msg.id != m.id) = prior := by
    rw [List.filter_eq_self]
    intro x hx
    simpa using hfresh x hx
  simp [h1]

theorem getItem_removeItem_self (store : List (String × String)) (key : String) :
    getItem (removeItem store key) key = none := by
  induction store with
  | nil => rfl
  | cons entry rest ih =>
    obtain ⟨k, v⟩ := entry
    unfold getItem removeItem at *
    by_cases h : k = key
    · simp [List.filter_cons, h, ih]
    · have h2 : (key == k) = false := by
        simp only [beq_eq_false_iff_ne, ne_eq]
        exact fun e => h e.symm
      rw [List.filter_cons]
      simp only [bne_iff_ne, ne_eq, h, not_false_eq_true, ↓reduceIte, List.lookup_cons, h2]
      exact ih

theorem getItem_removeItem_other (store : List (String × String)) (key other : String)
    (hne : other ≠ key) :
    getItem (removeItem store key) other = getItem store other := by
  induction store with
  | nil => rfl
  | cons entry rest ih =>
    obtain ⟨k, v⟩ := entry
    unfold getItem removeItem at *
    by_cases h : k = key
    · subst h
      have h2 : (other == k) = false := by
        simp only [beq_eq_false_iff_ne, ne_eq]
        exact hne
      rw [List.filter_cons]
      simp only [bne_iff_ne, ne_eq, not_true_eq_false, ↓reduceIte, List.lookup_cons, h2]
      exact ih
    · rw [List.filter_cons]
      simp only [bne_iff_ne, ne_eq, h, not_false_eq_true, ↓reduceIte, List.lookup_cons]
      cases other == k
      · exact ih
      · rfl

/-! ## Send -/

/-- C1: a send of a text that is non-empty after trimming, whose remote call
succeeds with response `r`, leaves `messages` equal to the prior list followed
by exactly two messages: the user message carrying the input text, then the
`bot` message carrying `r.message`. -/
theorem send_success_appends_user_then_bot (s : ChatState) (message : String)
    (env : SendEnv) (r : SendResponse)
    (hmsg : jsTrim message ≠ "") (hok : env.outcome = .ok r) :
    (sendMessage s message env).1.messages =
        s.messages ++
          [userMessageOf message env.mutateNow env.mutateIso, aiMessageOf r env.successNow] ∧
      (userMessageOf message env.mutateNow env.mutateIso).message_type = "user" ∧
      (userMessageOf message env.mutateNow env.mutateIso).content = message ∧
      (aiMessageOf r env.successNow).message_type = "bot" ∧
      (aiMessageOf r env.successNow).content = r.message := by
  refine ⟨?_, rfl, rfl, rfl, rfl⟩
  rw [sendMessage_ok s message env r hmsg hok]
  simp [onSuccess_messages, onMutate]

theorem send_success_appends_user_then_bot_witness :
    jsTrim "What is a bond?" ≠ "" ∧
      (sendMessage busyState "What is a bond?"
          ⟨5, "2024-01-01T00:00:00.005Z", 9, .ok (sampleResponse "T2")⟩).1.messages =
        busyState.messages ++
          [userMessageOf "What is a bond?" 5 "2024-01-01T00:00:00.005Z",
            aiMessageOf (sampleResponse "T2") 9] :=
  ⟨by decide,
    (send_success_appends_user_then_bot busyState "What is a bond?"
      ⟨5, "2024-01-01T00:00:00.005Z", 9, .ok (sampleResponse "T2")⟩ (sampleResponse "T2")
      (by decide) rfl).1⟩

/-- C2 (evaluation at the failing input): the session holds one system message
whose id is the clock reading 1000; a send in the same millisecond times out;
the rollback filter removes the system message together with the optimistic
user message, so `messages` ends empty although it held one message before. -/
theorem send_failure_rollback_drops_same_id_message :
    welcomedState.messages =
        [{ id := 1000, content := "Welcome", message_type := "system",
           timestamp := "2024-01-01T00:00:01.000Z", sources := none, confidence := none }] ∧
      (sendMessage welcomedState "hi"
          ⟨1000, "2024-01-01T00:00:01.000Z", 1001, .error timeoutError⟩).1.messages = [] ∧
      (sendMessage welcomedState "hi"
          ⟨1000, "2024-01-01T00:00:01.000Z", 1001, .error timeoutError⟩).1.messages ≠
        welcomedState.messages := by
  have hsend : (sendMessage welcomedState "hi"
      ⟨1000, "2024-01-01T00:00:01.000Z", 1001, .error timeoutError⟩).1.messages = [] := by
    rw [sendMessage_error welcomedState "hi" _ timeoutError (by decide) rfl]
    simp [onError, onMutate, welcomedState, addSystemMessage, initialState, userMessageOf]
  refine ⟨rfl, hsend, ?_⟩
  rw [hsend]
  simp [welcomedState, addSystemMessage, initialState]

/-- Rollback restores the list when no prior message carries the optimistic id,
and the error toast is raised on every failed send. -/
theorem send_failure_restores_when_id_fresh (s : ChatState) (message : String)
    (env : SendEnv) (error : AxiosError)
    (hmsg : jsTrim message ≠ "") (herr : env.outcome = .error error)
    (hfresh : ∀ x ∈ s.messages, x.id ≠ env.mutateNow) :
    (sendMessage s message env).1.messages = s.messages ∧
      (sendMessage s message env).1.toasts =
        s.toasts ++ [Toast.error "Failed to send message. Please try again."] := by
  rw [sendMessage_error s message env error hmsg herr]
  constructor
  · simp only [onError, onMutate]
    exact filter_ne_id_append_fresh s.messages
      (userMessageOf message env.mutateNow env.mutateIso) hfresh
  · simp [onError, onMutate]

/-- C3: for a text that is empty or holds only white space, `sendMessage`
returns at once: the whole state (messages, sources, busy flag, conversation
id, requests issued) is unchanged and the call completes normally. -/
theorem send_blank_is_noop (s : ChatState) (message : String) (env : SendEnv)
    (hblank : ∀ ch ∈ message.data, isJsWhitespace ch = true) :
    sendMessage s message env = (s, .ok ()) ∧
      (sendMessage s message env).1.messages = s.messages ∧
      (sendMessage s message env).1.sources = s.sources ∧
      (sendMessage s message env).1.isLoading = s.isLoading ∧
      (sendMessage s message env).1.conversationId = s.conversationId ∧
      (sendMessage s message env).1.client.requests = s.client.requests := by
  have h : sendMessage s message env = (s, .ok ()) := by
    simp [sendMessage, jsTrim_of_all_whitespace message hblank]
  simp [h]

theorem send_blank_is_noop_witness :
    (∀ ch ∈ " \t\n ".data, isJsWhitespace ch = true) ∧
      sendMessage busyState " \t\n "
          ⟨5, "2024-01-01T00:00:00.005Z", 9, .ok (sampleResponse "T2")⟩ =
        (busyState, .ok ()) :=
  ⟨by decide,
    (send_blank_is_noop busyState " \t\n "
      ⟨5, "2024-01-01T00:00:00.005Z", 9, .ok (sampleResponse "T2")⟩ (by decide)).1⟩

/-- C4: from an empty session with no conversation id, sending `Hello` when the
server answers with message `Hi!`, timestamp `T`, empty sources and
conversation id `c1` yields exactly the user message `Hello` followed by the
bot message `Hi!` stamped `T`, and the conversation id `c1`. -/
theorem hello_scenario (c : Client) (T iso : String) (now1 now2 : Int) :
    (sendMessage (initialState c) "Hello" ⟨now1, iso, now2, .ok (sampleResponse T)⟩).1.messages =
        [{ id := now1, content := "Hello", message_type := "user", timestamp := iso,
           sources := none, confidence := none },
         { id := now2 + 1, content := "Hi!", message_type := "bot", timestamp := T,
           sources := some [], confidence := none }] ∧
      (sendMessage (initialState c) "Hello"
          ⟨now1, iso, now2, .ok (sampleResponse T)⟩).1.conversationId = some "c1" := by
  rw [sendMessage_ok (initialState c) "Hello" _ (sampleResponse T) (by decide) rfl]
  constructor
  · simp [onSuccess_messages, onMutate, initialState, userMessageOf, aiMessageOf, sampleResponse]
  · simp [onSuccess_conversationId, sampleResponse, truthy]

/-- C5 (as stated, refuted): a session whose conversation id is already `c1`
receives a successful reply carrying `c2`; afterwards the id is `c2`, not `c1`. -/
theorem conversation_id_overwritten_by_reply :
    (setConversationId (initialState sampleClient) (some "c1")).conversationId = some "c1" ∧
      (sendMessage (setConversationId (initialState sampleClient) (some "c1")) "Hello"
          ⟨1, "2024-01-01T00:00:00.001Z", 2,
            .ok { message := "Hi!", timestamp := "T", sources := none, confidence := none,
                  conversation_id := some "c2" }⟩).1.conversationId = some "c2" ∧
      ¬ (sendMessage (setConversationId (initialState sampleClient) (some "c1")) "Hello"
          ⟨1, "2024-01-01T00:00:00.001Z", 2,
            .ok { message := "Hi!", timestamp := "T", sources := none, confidence := none,
                  conversation_id := some "c2" }⟩).1.conversationId = some "c1" := by
  have h : (sendMessage (setConversationId (initialState sampleClient) (some "c1")) "Hello"
      ⟨1, "2024-01-01T00:00:00.001Z", 2,
        .ok { message := "Hi!", timestamp := "T", sources := none, confidence := none,
              conversation_id := some "c2" }⟩).1.conversationId = some "c2" := by
    rw [sendMessage_ok _ "Hello" _ _ (by decide) rfl]
    simp [onSuccess_conversationId, truthy]
  refine ⟨rfl, h, ?_⟩
  rw [h]
  decide

/-- C5 (amended): a successful send adopts the reply's conversation id whenever
that id is non-empty, whatever id the session held before; a reply with no
conversation id, or an empty one, leaves the session's id unchanged; and a
session that held an id still holds one afterwards. -/
theorem send_success_conversation_id (s : ChatState) (message : String) (env : SendEnv)
    (r : SendResponse) (hmsg : jsTrim message ≠ "") (hok : env.outcome = .ok r) :
    (∀ c', r.conversation_id = some c' → c' ≠ "" →
        (sendMessage s message env).1.conversationId = some c') ∧
      (r.conversation_id = none ∨ r.conversation_id = some "" →
        (sendMessage s message env).1.conversationId = s.conversationId) ∧
      (s.conversationId.isSome = true →
        (sendMessage s message env).1.conversationId.isSome = true) := by
  rw [sendMessage_ok s message env r hmsg hok, onSuccess_conversationId]
  refine ⟨?_, ?_, ?_⟩
  · intro c' hc hne
    simp [hc, truthy, hne, onMutate]
  · intro h
    rcases h with h | h <;> simp [h, truthy, onMutate]
  · intro hs
    cases hr : r.conversation_id with
    | none => simpa [truthy, onMutate] using hs
    | some c' =>
      by_cases hc : c' = ""
      · simpa [truthy, hc, onMutate] using hs
      · simp [truthy, hc]

theorem send_success_conversation_id_witness :
    (sendMessage busyState "Hello"
        ⟨5, "2024-01-01T00:00:00.005Z", 9,
          .ok { message := "Hi!", timestamp := "T", sources := none, confidence := none,
                conversation_id := some "c2" }⟩).1.conversationId = some "c2" ∧
      (sendMessage busyState "Hello"
        ⟨5, "2024-01-01T00:00:00.005Z", 9,
          .ok { message := "Hi!", timestamp := "T", sources := none, confidence := none,
                conversation_id := none }⟩).1.conversationId = some "c1" :=
  ⟨(send_success_conversation_id busyState "Hello" _ _ (by decide) rfl).1 "c2" rfl (by decide),
    (send_success_conversation_id busyState "Hello" _ _ (by decide) rfl).2.1 (Or.inl rfl)⟩

/-! ## Clear -/

/-- C6: a clear whose DELETE succeeds leaves `messages = []`, `sources = []`
and `conversationId = null`, raises the success toast and completes normally. -/
theorem clear_success_resets_session (s : ChatState) :
    (clearChat s (.ok ())).1.messages = [] ∧
      (clearChat s (.ok ())).1.sources = [] ∧
      (clearChat s (.ok ())).1.conversationId = none ∧
      (clearChat s (.ok ())).1.toasts = s.toasts ++ [Toast.success "Chat history cleared"] ∧
      (clearChat s (.ok ())).2 = .ok () := by
  simp [clearChat, clearChatHistory, catchAndWrap, apiRequest, clearOnSuccess]

/-- C7: a clear whose DELETE fails leaves `messages`, `sources` and
`conversationId` exactly as they were, and the call is rejected. -/
theorem clear_failure_leaves_session (s : ChatState) (error : AxiosError) :
    (clearChat s (.error error)).1.messages = s.messages ∧
      (clearChat s (.error error)).1.sources = s.sources ∧
      (clearChat s (.error error)).1.conversationId = s.conversationId ∧
      (clearChat s (.error error)).2 =
        .error { message := errorMessage error "Failed to clear chat history" } := by
  simp [clearChat, clearChatHistory, catchAndWrap, apiRequest, clearOnError,
    responseRejected_snd]

/-! ## History -/

/-- C8: the history handler replaces and never merges. A reply carrying
`messages` makes the list exactly those messages (the empty list included); a
reply carrying `sources` makes the source list exactly those sources; a field
the reply does not carry leaves the corresponding list as it was. -/
theorem history_fetch_replaces (s : ChatState) (ms : List Message) (srcs : List Source)
    (om : Option (List Message)) (os : Option (List Source)) :
    (historyOnSuccess s (some { messages := some ms, sources := os })).messages = ms ∧
      (historyOnSuccess s (some { messages := some [], sources := os })).messages = [] ∧
      (historyOnSuccess s (some { messages := none, sources := os })).messages = s.messages ∧
      (historyOnSuccess s (some { messages := om, sources := some srcs })).sources = srcs ∧
      (historyOnSuccess s (some { messages := om, sources := none })).sources = s.sources := by
  refine ⟨?_, ?_, ?_, ?_, ?_⟩
  · cases os <;> simp [historyOnSuccess]
  · cases os <;> simp [historyOnSuccess]
  · cases os <;> simp [historyOnSuccess]
  · cases om <;> simp [historyOnSuccess]
  · cases om <;> simp [historyOnSuccess]

/-- C9: applying the history handler twice with the same reply gives the same
state, hence the same messages and sources, as applying it once. -/
theorem history_replace_idempotent (s : ChatState) (d : Option HistoryResponse) :
    historyOnSuccess (historyOnSuccess s d) d = historyOnSuccess s d ∧
      (historyOnSuccess (historyOnSuccess s d) d).messages = (historyOnSuccess s d).messages ∧
      (historyOnSuccess (historyOnSuccess s d) d).sources = (historyOnSuccess s d).sources := by
  have h : historyOnSuccess (historyOnSuccess s d) d = historyOnSuccess s d := by
    cases d with
    | none => simp [historyOnSuccess]
    | some d =>
      obtain ⟨om, os⟩ := d
      cases om <;> cases os <;> simp [historyOnSuccess]
  simp [h]

/-! ## Transport client -/

/-- C10: a call through the chat client that fails is rejected with the same
error; when the response status is 401 the stored `authToken` is gone, every
other stored key is kept and the location is `/login`; for any other status,
or no response at all, localStorage and the location are unchanged. -/
theorem unauthorized_clears_token_and_redirects {α : Type} (c : Client)
    (config : RequestConfig) (error : AxiosError) :
    (apiRequest c config (.error error : Except AxiosError α)).2 = .error error ∧
      (error.response.map (fun r => r.status) = some 401 →
        getItem (apiRequest c config (.error error : Except AxiosError α)).1.localStorage
            "authToken" = none ∧
          (∀ key, key ≠ "authToken" →
            getItem (apiRequest c config (.error error : Except AxiosError α)).1.localStorage
              key = getItem c.localStorage key) ∧
          (apiRequest c config (.error error : Except AxiosError α)).1.locationHref =
            "/login") ∧
      (error.response.map (fun r => r.status) ≠ some 401 →
        (apiRequest c config (.error error : Except AxiosError α)).1.localStorage =
            c.localStorage ∧
          (apiRequest c config (.error error : Except AxiosError α)).1.locationHref =
            c.locationHref) := by
  refine ⟨?_, ?_, ?_⟩
  · simp [apiRequest, responseRejected_snd]
  · intro h
    simp only [apiRequest, responseRejected, h, if_true]
    exact ⟨getItem_removeItem_self _ _,
      fun key hkey => getItem_removeItem_other _ _ key hkey, trivial⟩
  · intro h
    simp [apiRequest, responseRejected, h]

theorem unauthorized_clears_token_and_redirects_witness :
    (getItem sampleClient.localStorage "authToken" = some "tok" ∧
        getItem (apiRequest sampleClient
            { method := "post", url := "/chat/send", data := Body.chatSend "Hello" none,
              headers := defaultHeaders }
            (.error (statusError 401) : Except AxiosError SendResponse)).1.localStorage
          "authToken" = none) ∧
      (apiRequest sampleClient
          { method := "post", url := "/chat/send", data := Body.chatSend "Hello" none,
            headers := defaultHeaders }
          (.error (statusError 500) : Except AxiosError SendResponse)).1.localStorage =
        sampleClient.localStorage :=
  ⟨⟨by decide,
      ((unauthorized_clears_token_and_redirects sampleClient _ (statusError 401)).2.1
        (by decide)).1⟩,
    ((unauthorized_clears_token_and_redirects sampleClient _ (statusError 500)).2.2
      (by decide)).1⟩

/-! ## Lemmas on the two axios clients -/

theorem responseRejected_requests (c : Client) (error : AxiosError) :
    (responseRejected c error).1.requests = c.requests := by
  unfold responseRejected
  split <;> rfl

theorem catchAndWrap_error {α : Type} (label generic : String) (c : Client)
    (config : RequestConfig) (error : AxiosError) :
    (catchAndWrap label generic
        (apiRequest c config (.error error : Except AxiosError α))).2 =
      .error { message := errorMessage error generic } := by
  simp [catchAndWrap, apiRequest, responseRejected_snd]

theorem errorMessage_of_detail (error : AxiosError) (generic d : String)
    (hd : error.response.bind (fun r => r.detail) = some d) (hne : d ≠ "") :
    errorMessage error generic = d := by
  simp [errorMessage, hd, truthy, hne, interpolate]

theorem errorMessage_of_no_detail (error : AxiosError) (generic : String)
    (hd : error.response.bind (fun r => r.detail) = none ∨
      error.response.bind (fun r => r.detail) = some "") :
    errorMessage error generic = generic := by
  rcases hd with hd | hd <;> simp [errorMessage, hd, truthy]

theorem lookup_setHeader_self (headers : List (String × String)) (name value : String) :
    (setHeader headers name value).lookup name = some value := by
  unfold setHeader
  rw [List.lookup_append]
  have h := getItem_removeItem_self headers name
  unfold getItem removeItem at h
  rw [h]
  simp [List.lookup_cons]

theorem lookup_setHeader_other (headers : List (String × String))
    (name value other : String) (hne : other ≠ name) :
    (setHeader headers name value).lookup other = headers.lookup other := by
  unfold setHeader
  rw [List.lookup_append]
  have h := getItem_removeItem_other headers name other hne
  unfold getItem removeItem at h
  rw [h]
  have h2 : (other == name) = false := by
    simp only [beq_eq_false_iff_ne, ne_eq]
    exact hne
  cases hl : List.lookup other headers <;> simp [List.lookup_cons, h2]

theorem newsApiRequest_error {α : Type} (c : Client) (config : RequestConfig)
    (error : AxiosError) :
    (newsApiRequest c config (.error error : Except AxiosError α)).1.localStorage =
        c.localStorage ∧
      (newsApiRequest c config (.error error : Except AxiosError α)).1.locationHref =
        c.locationHref ∧
      (newsApiRequest c config (.error error : Except AxiosError α)).2 = .error error := by
  simp [newsApiRequest, newsResponseRejected]

theorem newsApiRequest_rejects {α : Type} (c : Client) (config : RequestConfig)
    (error : AxiosError) :
    (newsApiRequest c config (.error error : Except AxiosError α)).1.localStorage =
        c.localStorage ∧
      (newsApiRequest c config (.error error : Except AxiosError α)).1.locationHref =
        c.locationHref ∧
      (newsApiRequest c config (.error error : Except AxiosError α)).1.console =
        c.console ++ [("API Error:", error.message)] ∧
      (newsApiRequest c config (.error error : Except AxiosError α)).2 = .error error := by
  simp [newsApiRequest, newsResponseRejected]

/-! ## Transport client, continued -/

/-- C11 (as stated, refuted): a 401 on `getLatestNews`, issued through the news
client, leaves the stored token in place and the location on the chat route. -/
theorem news_unauthorized_keeps_token :
    getItem
        (getLatestNews sampleClient []
          (.error (statusError 401) : Except AxiosError (List String))).1.localStorage
        "authToken" = some "tok" ∧
      (getLatestNews sampleClient []
          (.error (statusError 401) : Except AxiosError (List String))).1.locationHref =
        "/chat" ∧
      ¬ (getLatestNews sampleClient []
          (.error (statusError 401) : Except AxiosError (List String))).1.locationHref =
        "/login" := by
  have h := newsApiRequest_error (α := List String) sampleClient
    { method := "get", url := "/news/latest", data := Body.empty, headers := [],
      params := [] } (statusError 401)
  refine ⟨?_, ?_, ?_⟩
  · unfold getLatestNews
    rw [h.1]
    decide
  · unfold getLatestNews
    rw [h.2.1]
    rfl
  · unfold getLatestNews
    rw [h.2.1]
    decide

/-- C11 (amended): a 401 on a call through the chat client clears the stored
token and sets the location to `/login`; every failed call through the news
client (each of its five operations, whatever the error, a 401 included) is
logged to the console, rejected with the same error, and leaves the stored
token and the location unchanged. -/
theorem unauthorized_handling_per_client {α : Type} (c : Client) (config : RequestConfig)
    (error : AxiosError) (symbol query : String) (params : List (String × String)) :
    (error.response.map (fun r => r.status) = some 401 →
        getItem (apiRequest c config (.error error : Except AxiosError α)).1.localStorage
            "authToken" = none ∧
          (apiRequest c config (.error error : Except AxiosError α)).1.locationHref =
            "/login" ∧
          (apiRequest c config (.error error : Except AxiosError α)).2 = .error error) ∧
      ((getLatestNews c params (.error error : Except AxiosError α)).1.localStorage =
          c.localStorage ∧
        (getLatestNews c params (.error error : Except AxiosError α)).1.locationHref =
          c.locationHref ∧
        (getLatestNews c params (.error error : Except AxiosError α)).1.console =
          c.console ++ [("API Error:", error.message)] ∧
        (getLatestNews c params (.error error : Except AxiosError α)).2 = .error error) ∧
      ((getStockNews c symbol params (.error error : Except AxiosError α)).1.localStorage =
          c.localStorage ∧
        (getStockNews c symbol params (.error error : Except AxiosError α)).1.locationHref =
          c.locationHref ∧
        (getStockNews c symbol params (.error error : Except AxiosError α)).1.console =
          c.console ++ [("API Error:", error.message)] ∧
        (getStockNews c symbol params (.error error : Except AxiosError α)).2 =
          .error error) ∧
      ((getNewsSources c (.error error : Except AxiosError α)).1.localStorage =
          c.localStorage ∧
        (getNewsSources c (.error error : Except AxiosError α)).1.locationHref =
          c.locationHref ∧
        (getNewsSources c (.error error : Except AxiosError α)).1.console =
          c.console ++ [("API Error:", error.message)] ∧
        (getNewsSources c (.error error : Except AxiosError α)).2 = .error error) ∧
      ((getNewsCategories c (.error error : Except AxiosError α)).1.localStorage =
          c.localStorage ∧
        (getNewsCategories c (.error error : Except AxiosError α)).1.locationHref =
          c.locationHref ∧
        (getNewsCategories c (.error error : Except AxiosError α)).1.console =
          c.console ++ [("API Error:", error.message)] ∧
        (getNewsCategories c (.error error : Except AxiosError α)).2 = .error error) ∧
      ((searchNews c query params (.error error : Except AxiosError α)).1.localStorage =
          c.localStorage ∧
        (searchNews c query params (.error error : Except AxiosError α)).1.locationHref =
          c.locationHref ∧
        (searchNews c query params (.error error : Except AxiosError α)).1.console =
          c.console ++ [("API Error:", error.message)] ∧
        (searchNews c query params (.error error : Except AxiosError α)).2 =
          .error error) := by
  refine ⟨?_, ?_, ?_, ?_, ?_, ?_⟩
  · intro h401
    refine ⟨?_, ?_, ?_⟩
    · simp only [apiRequest, responseRejected, h401, if_true]
      exact getItem_removeItem_self _ _
    · simp only [apiRequest, responseRejected, h401, if_true]
    · simp [apiRequest, responseRejected_snd]
  · exact newsApiRequest_rejects c _ error
  · exact newsApiRequest_rejects c _ error
  · exact newsApiRequest_rejects c _ error
  · exact newsApiRequest_rejects c _ error
  · exact newsApiRequest_rejects c _ error

theorem unauthorized_handling_per_client_witness :
    ((statusError 401).response.map (fun r => r.status) = some 401 ∧
        getItem (apiRequest sampleClient sampleConfig
            (.error (statusError 401) : Except AxiosError Unit)).1.localStorage
          "authToken" = none) ∧
      (getItem (searchNews sampleClient "bonds" [("limit", "5")]
            (.error (statusError 401) : Except AxiosError Unit)).1.localStorage
          "authToken" = some "tok" ∧
        (searchNews sampleClient "bonds" [("limit", "5")]
            (.error (statusError 401) : Except AxiosError Unit)).1.console =
          [("API Error:", "Request failed")]) ∧
      (getStockNews sampleClient "AAPL" []
          (.error timeoutError : Except AxiosError Unit)).1.console =
        [("API Error:", "timeout of 30000ms exceeded")] :=
  ⟨⟨by decide,
      ((unauthorized_handling_per_client sampleClient sampleConfig (statusError 401)
        "AAPL" "bonds" [("limit", "5")]).1 (by decide)).1⟩,
    ⟨by
        rw [(unauthorized_handling_per_client (α := Unit) sampleClient sampleConfig
          (statusError 401) "AAPL" "bonds" [("limit", "5")]).2.2.2.2.2.1]
        decide,
      (unauthorized_handling_per_client (α := Unit) sampleClient sampleConfig
        (statusError 401) "AAPL" "bonds" [("limit", "5")]).2.2.2.2.2.2.2.1⟩,
    (unauthorized_handling_per_client (α := Unit) sampleClient sampleConfig timeoutError
      "AAPL" "bonds" []).2.2.1.2.2.1⟩

/-- C12: when localStorage holds a token (a non-empty string) under
`authToken`, the request interceptor sets `Authorization` to `Bearer ` followed
by that token and keeps every other header; when nothing is stored, or the
stored string is empty, the config goes through unchanged; method, url, data
and params are never touched. -/
theorem request_interceptor_bearer (c : Client) (config : RequestConfig) :
    (∀ token, getItem c.localStorage "authToken" = some token → token ≠ "" →
        (requestInterceptor c config).headers.lookup "Authorization" =
            some ("Bearer " ++ token) ∧
          ∀ name, name ≠ "Authorization" →
            (requestInterceptor c config).headers.lookup name =
              config.headers.lookup name) ∧
      (getItem c.localStorage "authToken" = none ∨
          getItem c.localStorage "authToken" = some "" →
        requestInterceptor c config = config) ∧
      (requestInterceptor c config).method = config.method ∧
      (requestInterceptor c config).url = config.url ∧
      (requestInterceptor c config).data = config.data ∧
      (requestInterceptor c config).params = config.params := by
  refine ⟨?_, ?_, ?_, ?_, ?_, ?_⟩
  · intro token htok hne
    have ht : truthy (getItem c.localStorage "authToken") = true := by
      simp [htok, truthy, hne]
    simp only [requestInterceptor, ht, if_true]
    refine ⟨?_, ?_⟩
    · rw [lookup_setHeader_self, htok]
      rfl
    · intro name hname
      exact lookup_setHeader_other _ _ _ name hname
  · intro h
    rcases h with h | h <;> simp [requestInterceptor, h, truthy]
  all_goals
    unfold requestInterceptor
    split <;> rfl

theorem request_interceptor_bearer_witness :
    (getItem sampleClient.localStorage "authToken" = some "tok" ∧ "tok" ≠ "") ∧
      (requestInterceptor sampleClient sampleConfig).headers.lookup "Authorization" =
        some ("Bearer " ++ "tok") ∧
      requestInterceptor { sampleClient with localStorage := [("theme", "dark")] }
        sampleConfig = sampleConfig :=
  ⟨⟨by decide, by decide⟩,
    ((request_interceptor_bearer sampleClient sampleConfig).1 "tok" (by decide)
      (by decide)).1,
    (request_interceptor_bearer { sampleClient with localStorage := [("theme", "dark")] }
      sampleConfig).2.1 (Or.inl (by decide))⟩

/-- C13 (as stated, refuted): the server answers 400 with a `detail` field that
is present and holds the empty string; `sendChatMessage` throws the generic
text, not the detail. -/
theorem empty_detail_yields_generic_message :
    (detailError 400 "").response.bind (fun r => r.detail) = some "" ∧
      (sendChatMessage sampleClient "Hello" none (.error (detailError 400 ""))).2 =
        .error { message := "Failed to send message" } ∧
      ¬ (sendChatMessage sampleClient "Hello" none (.error (detailError 400 ""))).2 =
        .error { message := "" } := by
  have h : (sendChatMessage sampleClient "Hello" none (.error (detailError 400 ""))).2 =
      .error { message := "Failed to send message" } := by
    unfold sendChatMessage
    rw [catchAndWrap_error]
    rfl
  refine ⟨rfl, h, ?_⟩
  rw [h]
  simp

/-- C13 (amended): every chat API operation, on a failed request, throws an
error whose message is the server's `detail` when that field is present and
non-empty, and the operation's own generic text when the field is absent, is
empty, or there is no response at all. -/
theorem thrown_message_detail_or_generic {α : Type} (c : Client) (error : AxiosError)
    (text : String) (cid : Option String) (topK : Option Int) (incl : Option Bool)
    (metadata : Option (List (String × String))) :
    ((sendChatMessage c text cid (.error error)).2 =
          .error { message := errorMessage error "Failed to send message" } ∧
        (getChatHistory c cid (.error error)).2 =
          .error { message := errorMessage error "Failed to fetch chat history" } ∧
        (clearChatHistory c cid (.error error)).2 =
          .error { message := errorMessage error "Failed to clear chat history" } ∧
        (getChatStats c (.error error : Except AxiosError α)).2 =
          .error { message := errorMessage error "Failed to fetch chat statistics" } ∧
        (queryRAG c text topK incl (.error error : Except AxiosError α)).2 =
          .error { message := errorMessage error "Failed to query RAG system" } ∧
        (searchSimilar c text topK (.error error : Except AxiosError α)).2 =
          .error { message := errorMessage error "Failed to search documents" } ∧
        (getRAGStats c (.error error : Except AxiosError α)).2 =
          .error { message := errorMessage error "Failed to fetch RAG statistics" } ∧
        (addDocumentToRAG c text (.error error : Except AxiosError α)).2 =
          .error { message := errorMessage error "Failed to add document" } ∧
        (addTextToRAG c text metadata (.error error : Except AxiosError α)).2 =
          .error { message := errorMessage error "Failed to add text" } ∧
        (clearRAG c (.error error : Except AxiosError α)).2 =
          .error { message := errorMessage error "Failed to clear RAG system" } ∧
        (getRAGHealth c (.error error : Except AxiosError α)).2 =
          .error { message := errorMessage error "Failed to check RAG health" }) ∧
      (∀ generic d, error.response.bind (fun r => r.detail) = some d → d ≠ "" →
        errorMessage error generic = d) ∧
      (∀ generic,
        (error.response.bind (fun r => r.detail) = none ∨
          error.response.bind (fun r => r.detail) = some "") →
        errorMessage error generic = generic) := by
  refine ⟨⟨?_, ?_, ?_, ?_, ?_, ?_, ?_, ?_, ?_, ?_, ?_⟩, ?_, ?_⟩
  · exact catchAndWrap_error _ _ c _ error
  · exact catchAndWrap_error _ _ c _ error
  · exact catchAndWrap_error _ _ c _ error
  · exact catchAndWrap_error _ _ c _ error
  · exact catchAndWrap_error _ _ c _ error
  · exact catchAndWrap_error _ _ c _ error
  · exact catchAndWrap_error _ _ c _ error
  · exact catchAndWrap_error _ _ c _ error
  · exact catchAndWrap_error _ _ c _ error
  · exact catchAndWrap_error _ _ c _ error
  · exact catchAndWrap_error _ _ c _ error
  · intro generic d hd hne
    exact errorMessage_of_detail error generic d hd hne
  · intro generic hd
    exact errorMessage_of_no_detail error generic hd

theorem thrown_message_detail_or_generic_witness :
    (clearChatHistory sampleClient (some "c1")
        (.error (detailError 404 "Conversation not found"))).2 =
        .error { message := errorMessage (detailError 404 "Conversation not found")
                  "Failed to clear chat history" } ∧
      errorMessage (detailError 404 "Conversation not found")
        "Failed to clear chat history" = "Conversation not found" ∧
      errorMessage timeoutError "Failed to clear chat history" =
        "Failed to clear chat history" :=
  ⟨(thrown_message_detail_or_generic (α := Unit) sampleClient
      (detailError 404 "Conversation not found") "x" (some "c1") none none none).1.2.2.1,
    (thrown_message_detail_or_generic (α := Unit) sampleClient
      (detailError 404 "Conversation not found") "x" (some "c1") none none none).2.1
      "Failed to clear chat history" "Conversation not found" rfl (by decide),
    (thrown_message_detail_or_generic (α := Unit) sampleClient timeoutError "x" none none
      none none).2.2 "Failed to clear chat history" (Or.inl rfl)⟩

/-! ## Lemmas on the send handlers -/

theorem requestInterceptor_fields (c : Client) (config : RequestConfig) :
    (requestInterceptor c config).method = config.method ∧
      (requestInterceptor c config).url = config.url ∧
      (requestInterceptor c config).data = config.data := by
  unfold requestInterceptor
  split <;> exact ⟨rfl, rfl, rfl⟩

theorem sendChatMessage_requests (c : Client) (message : String) (cid : Option String)
    (outcome : Except AxiosError SendResponse) :
    (sendChatMessage c message cid outcome).1.requests =
      c.requests ++
        [requestInterceptor c
          { method := "post", url := "/chat/send", data := Body.chatSend message cid,
            headers := defaultHeaders }] := by
  cases outcome with
  | ok r => simp [sendChatMessage, catchAndWrap, apiRequest]
  | error e => simp [sendChatMessage, catchAndWrap, apiRequest, responseRejected_requests]

theorem onSuccess_client (s : ChatState) (r : SendResponse) (now : Int) :
    (onSuccess s r now).client = s.client := by
  unfold onSuccess
  cases r.sources <;> cases truthy r.conversation_id <;> simp

theorem onSuccess_sources (s : ChatState) (r : SendResponse) (now : Int) :
    (onSuccess s r now).sources = s.sources ++ r.sources.getD [] := by
  unfold onSuccess
  cases r.sources <;> cases truthy r.conversation_id <;> simp

theorem onSuccess_isLoading (s : ChatState) (r : SendResponse) (now : Int) :
    (onSuccess s r now).isLoading = false := by
  unfold onSuccess
  cases r.sources <;> cases truthy r.conversation_id <;> simp

theorem sendMessage_requests (s : ChatState) (message : String) (env : SendEnv)
    (hmsg : jsTrim message ≠ "") :
    (sendMessage s message env).1.client.requests =
      s.client.requests ++
        [requestInterceptor s.client
          { method := "post", url := "/chat/send",
            data := Body.chatSend message s.conversationId, headers := defaultHeaders }] := by
  cases hout : env.outcome with
  | ok r =>
    rw [sendMessage_ok s message env r hmsg hout, onSuccess_client]
    exact sendChatMessage_requests s.client message s.conversationId (.ok r)
  | error e =>
    rw [sendMessage_error s message env e hmsg hout]
    simp only [onError]
    exact sendChatMessage_requests s.client message s.conversationId (.error e)

theorem sendMessage_sources_ok (s : ChatState) (message : String) (env : SendEnv)
    (r : SendResponse) (hmsg : jsTrim message ≠ "") (hok : env.outcome = .ok r) :
    (sendMessage s message env).1.sources = s.sources ++ r.sources.getD [] := by
  rw [sendMessage_ok s message env r hmsg hok, onSuccess_sources]
  simp [onMutate]

theorem runSends_sources (sends : List (String × SendEnv)) :
    ∀ s : ChatState,
      (∀ call ∈ sends, jsTrim call.1 ≠ "" ∧ ∃ r, call.2.outcome = .ok r) →
      (runSends s sends).sources =
        s.sources ++ sends.flatMap (fun call => replySources call.2) := by
  induction sends with
  | nil =>
    intro s _
    simp [runSends]
  | cons call rest ih =>
    intro s hall
    obtain ⟨hmsg, r, hr⟩ := hall call (List.mem_cons_self _ _)
    have hrest : ∀ x ∈ rest, jsTrim x.1 ≠ "" ∧ ∃ r, x.2.outcome = .ok r :=
      fun x hx => hall x (List.mem_cons_of_mem _ hx)
    have hstep := ih (sendMessage s call.1 call.2).1 hrest
    unfold runSends at hstep ⊢
    rw [List.foldl_cons, hstep, sendMessage_sources_ok s call.1 call.2 r hmsg hr,
      List.flatMap_cons]
    simp [replySources, hr]

/-! ## Send, continued -/

/-- C14: every send that passes the non-blank check issues exactly one request,
a `post` to `/chat/send` whose body carries the caller's input text as
`message` and the session's conversation id at call time as `conversation_id`
(null when none is established), whatever the remote outcome. -/
theorem send_issues_post_chat_send (s : ChatState) (message : String) (env : SendEnv)
    (hmsg : jsTrim message ≠ "") :
    ∃ request : RequestConfig,
      (sendMessage s message env).1.client.requests = s.client.requests ++ [request] ∧
        request.method = "post" ∧ request.url = "/chat/send" ∧
        request.data = Body.chatSend message s.conversationId := by
  refine ⟨_, sendMessage_requests s message env hmsg, ?_, ?_, ?_⟩
  · exact (requestInterceptor_fields _ _).1
  · exact (requestInterceptor_fields _ _).2.1
  · exact (requestInterceptor_fields _ _).2.2

theorem send_issues_post_chat_send_witness :
    jsTrim " Hello " ≠ "" ∧
      ∃ request : RequestConfig,
        (sendMessage (initialState sampleClient) " Hello "
            ⟨5, "2024-01-01T00:00:00.005Z", 9, .error timeoutError⟩).1.client.requests =
          (initialState sampleClient).client.requests ++ [request] ∧
          request.method = "post" ∧ request.url = "/chat/send" ∧
          request.data = Body.chatSend " Hello " (initialState sampleClient).conversationId :=
  ⟨by decide,
    send_issues_post_chat_send (initialState sampleClient) " Hello "
      ⟨5, "2024-01-01T00:00:00.005Z", 9, .error timeoutError⟩ (by decide)⟩

/-- C15: after a successful send with response `r` the last message of the list
is the assistant message built from `r`: content `r.message`, timestamp
`r.timestamp` whatever the client clock reads, sources `r.sources`, confidence
`r.confidence`, role `bot`. -/
theorem assistant_message_from_response (s : ChatState) (message : String)
    (env : SendEnv) (r : SendResponse)
    (hmsg : jsTrim message ≠ "") (hok : env.outcome = .ok r) :
    ∃ reply : Message,
      (sendMessage s message env).1.messages.getLast? = some reply ∧
        reply.content = r.message ∧ reply.timestamp = r.timestamp ∧
        reply.sources = r.sources ∧ reply.confidence = r.confidence ∧
        reply.message_type = "bot" := by
  refine ⟨aiMessageOf r env.successNow, ?_, rfl, rfl, rfl, rfl, rfl⟩
  rw [sendMessage_ok s message env r hmsg hok, onSuccess_messages]
  exact List.getLast?_concat _

theorem assistant_message_from_response_witness :
    jsTrim "Which filing?" ≠ "" ∧
      ∃ reply : Message,
        (sendMessage busyState "Which filing?"
            ⟨5, "2024-01-01T00:00:00.005Z", 9, .ok citedResponse⟩).1.messages.getLast? =
          some reply ∧
          reply.content = citedResponse.message ∧ reply.timestamp = citedResponse.timestamp ∧
          reply.sources = citedResponse.sources ∧
          reply.confidence = citedResponse.confidence ∧ reply.message_type = "bot" :=
  ⟨by decide,
    assistant_message_from_response busyState "Which filing?"
      ⟨5, "2024-01-01T00:00:00.005Z", 9, .ok citedResponse⟩ citedResponse (by decide) rfl⟩

/-- C16: after any sequence of successful non-blank sends from an empty session
the flat source list is the concatenation, in completion order, of the replies'
`sources` arrays; a reply without `sources` adds nothing. -/
theorem sources_accumulate (c : Client) (sends : List (String × SendEnv))
    (hall : ∀ call ∈ sends, jsTrim call.1 ≠ "" ∧ ∃ r, call.2.outcome = .ok r) :
    (runSends (initialState c) sends).sources =
        sends.flatMap (fun call => replySources call.2) ∧
      ∀ (s : ChatState) (message : String) (env : SendEnv) (r : SendResponse),
        jsTrim message ≠ "" → env.outcome = .ok r → r.sources = none →
        (sendMessage s message env).1.sources = s.sources := by
  constructor
  · rw [runSends_sources sends (initialState c) hall]
    simp [initialState]
  · intro s message env r hmsg hok hnone
    rw [sendMessage_sources_ok s message env r hmsg hok, hnone]
    simp

theorem sources_accumulate_witness :
    (∀ call ∈ [("Which filing?",
          (⟨5, "2024-01-01T00:00:00.005Z", 9, .ok citedResponse⟩ : SendEnv))],
        jsTrim call.1 ≠ "" ∧ ∃ r, call.2.outcome = .ok r) ∧
      (runSends (initialState sampleClient)
          [("Which filing?",
            (⟨5, "2024-01-01T00:00:00.005Z", 9, .ok citedResponse⟩ : SendEnv))]).sources =
        [("Which filing?",
          (⟨5, "2024-01-01T00:00:00.005Z", 9, .ok citedResponse⟩ : SendEnv))].flatMap
          (fun call => replySources call.2) :=
  have hall : ∀ call ∈ [("Which filing?",
      (⟨5, "2024-01-01T00:00:00.005Z", 9, .ok citedResponse⟩ : SendEnv))],
      jsTrim call.1 ≠ "" ∧ ∃ r, call.2.outcome = .ok r := by
    intro call hcall
    rw [List.mem_singleton] at hcall
    subst hcall
    exact ⟨by decide, citedResponse, rfl⟩
  ⟨hall, (sources_accumulate sampleClient _ hall).1⟩

/-- C18: every operation that keeps existing messages keeps their order. The
three appends put the new message last; rollback and `removeMessage` leave a
sublist of the old list; `updateMessage` keeps the length and, position by
position, either the old message or its updated version. -/
theorem message_order_preserved (s : ChatState) (text iso : String) (now messageId : Int)
    (r : SendResponse) (error : JsError) (context : Message) (updates : MessageUpdates)
    (i : Nat) :
    (onMutate s text now iso).1.messages = s.messages ++ [userMessageOf text now iso] ∧
      (onSuccess s r now).messages = s.messages ++ [aiMessageOf r now] ∧
      (addSystemMessage s text now iso).messages =
        s.messages ++
          [{ id := now, content := text, message_type := "system", timestamp := iso,
             sources := none, confidence := none }] ∧
      (onError s error context).messages.Sublist s.messages ∧
      (removeMessage s messageId).messages.Sublist s.messages ∧
      (updateMessage s messageId updates).messages.length = s.messages.length ∧
      (updateMessage s messageId updates).messages[i]? =
        (s.messages[i]?).map
          (fun msg => if msg.id = messageId then applyUpdates msg updates else msg) := by
  refine ⟨rfl, onSuccess_messages s r now, rfl, ?_, ?_, ?_, ?_⟩
  · exact List.filter_sublist _
  · exact List.filter_sublist _
  · simp [updateMessage]
  · simp [updateMessage]

/-- C19 (evaluation at the failing input): two sends, each settled before the
next, on the strictly increasing clock readings 1000, 1001, 1002, 1003. The
first reply gets id 1001 + 1 and the second user message gets id 1002, so the
ids are not pairwise distinct and removal by id 1002 takes two messages. -/
theorem successive_sends_share_an_id :
    (runSends (initialState sampleClient) twoSends).messages.map (fun m => m.id) =
        [1000, 1002, 1002, 1004] ∧
      ¬ ((runSends (initialState sampleClient) twoSends).messages.map
          (fun m => m.id)).Nodup ∧
      (removeMessage (runSends (initialState sampleClient) twoSends) 1002).messages.map
          (fun m => m.content) = ["a", "Hi!"] := by
  have hrun : (runSends (initialState sampleClient) twoSends).messages =
      [userMessageOf "a" 1000 "2024-01-01T00:00:01.000Z", aiMessageOf (sampleResponse "T1") 1001,
        userMessageOf "b" 1002 "2024-01-01T00:00:01.002Z",
        aiMessageOf (sampleResponse "T2") 1003] := by
    simp only [runSends, twoSends, List.foldl_cons, List.foldl_nil]
    rw [(sendMessage_ok_messages _ "b" _ (sampleResponse "T2") (by decide) rfl),
      (sendMessage_ok_messages _ "a" _ (sampleResponse "T1") (by decide) rfl)]
    simp [initialState]
  refine ⟨?_, ?_, ?_⟩
  · rw [hrun]
    rfl
  · rw [hrun]
    decide
  · simp only [removeMessage, hrun]
    decide

/-- C20: a non-blank send whose remote call fails ends with the error re-raised
to the caller, after the rollback (no message with the optimistic id is left,
the busy flag is down, the toast is up); and `sendMessage` completes normally
exactly when the input is blank or the remote call succeeded. -/
theorem send_failure_reraised (s : ChatState) (message : String) (env : SendEnv) :
    (∀ error, jsTrim message ≠ "" → env.outcome = .error error →
        (sendMessage s message env).2 =
            .error { message := errorMessage error "Failed to send message" } ∧
          (∀ m ∈ (sendMessage s message env).1.messages, m.id ≠ env.mutateNow) ∧
          (sendMessage s message env).1.isLoading = false ∧
          (sendMessage s message env).1.toasts =
            s.toasts ++ [Toast.error "Failed to send message. Please try again."]) ∧
      ((sendMessage s message env).2 = .ok () ↔
        (jsTrim message = "" ∨ ∃ r, env.outcome = .ok r)) := by
  constructor
  · intro error hmsg herr
    rw [sendMessage_error s message env error hmsg herr]
    refine ⟨rfl, ?_, rfl, ?_⟩
    · intro m hm
      simp only [onError, onMutate, userMessageOf, List.mem_filter, bne_iff_ne, ne_eq] at hm
      exact hm.2
    · simp [onError, onMutate]
  · by_cases hmsg : jsTrim message = ""
    · simp [sendMessage, hmsg]
    · cases hout : env.outcome with
      | ok r =>
        rw [sendMessage_ok s message env r hmsg hout]
        simp [hmsg]
      | error e =>
        rw [sendMessage_error s message env e hmsg hout]
        simp [hmsg]

theorem send_failure_reraised_witness :
    (jsTrim "hi" ≠ "" ∧
        (sendMessage welcomedState "hi"
            ⟨1000, "2024-01-01T00:00:01.000Z", 1001, .error timeoutError⟩).2 =
          .error { message := errorMessage timeoutError "Failed to send message" }) ∧
      (sendMessage welcomedState "  "
          ⟨1000, "2024-01-01T00:00:01.000Z", 1001, .error timeoutError⟩).2 = .ok () :=
  ⟨⟨by decide,
      ((send_failure_reraised welcomedState "hi"
        ⟨1000, "2024-01-01T00:00:01.000Z", 1001, .error timeoutError⟩).1 timeoutError
        (by decide) rfl).1⟩,
    (send_failure_reraised welcomedState "  "
      ⟨1000, "2024-01-01T00:00:01.000Z", 1001, .error timeoutError⟩).2.mpr
      (Or.inl (by decide))⟩

/-! ## WebSocket hook -/

theorem wsInv_connect (constructed : Bool) : WsInv (wsConnect wsInitial constructed) := by
  cases constructed <;> simp [WsInv, wsConnect, wsInitial]

theorem wsInv_step (s : WsState) (e : WsEvent) (h : WsInv s) : WsInv (wsStep s e) := by
  obtain ⟨h1, h2⟩ := h
  cases e with
  | «open» =>
    by_cases hs : s.hasSocket = true
    · simp only [wsStep, hs, if_true]
      exact ⟨fun _ => ⟨hs, Or.inl rfl⟩, fun _ => rfl⟩
    · simp only [wsStep, hs]
      exact ⟨h1, h2⟩
  | close =>
    by_cases hs : s.hasSocket = true
    · simp only [wsStep, hs, if_true]
      exact ⟨fun hc => by simp [wsOnClose] at hc, fun hc => by simp [wsOnClose] at hc⟩
    · simp only [wsStep, hs]
      exact ⟨h1, h2⟩
  | error =>
    by_cases hs : s.hasSocket = true
    · simp only [wsStep, hs, if_true]
      exact ⟨fun _ => ⟨hs, Or.inr rfl⟩, fun hc => by simp [wsOnError] at hc⟩
    · simp only [wsStep, hs]
      exact ⟨h1, h2⟩
  | message data parses =>
    by_cases hs : s.hasSocket = true
    · simp only [wsStep, hs, if_true]
      cases parses
      · exact ⟨h1, h2⟩
      · exact ⟨h1, h2⟩
    · simp only [wsStep, hs]
      exact ⟨h1, h2⟩
  | send frame =>
    by_cases hs : (s.hasSocket && s.isConnected) = true
    · simp only [wsStep, wsSendMessage, hs, if_true]
      exact ⟨h1, h2⟩
    · simp only [wsStep, wsSendMessage, hs]
      exact ⟨h1, h2⟩

theorem wsInv_foldl (events : List WsEvent) :
    ∀ s : WsState, WsInv s → WsInv (events.foldl wsStep s) := by
  induction events with
  | nil => exact fun s h => h
  | cons e rest ih => exact fun s h => ih (wsStep s e) (wsInv_step s e h)

theorem wsInv_run (constructed : Bool) (events : List WsEvent) :
    WsInv (wsRun constructed events) :=
  wsInv_foldl events _ (wsInv_connect constructed)

/-- C17 (as stated, refuted): after `open` then `error` the status is `error`,
yet `sendMessage` hands the frame to the socket. -/
theorem ws_send_transmits_in_error_state :
    (wsRun true [WsEvent.open, WsEvent.error]).connectionStatus = "error" ∧
      (wsRun true [WsEvent.open, WsEvent.error]).sent = [] ∧
      (wsSendMessage (wsRun true [WsEvent.open, WsEvent.error]) "ping").sent = ["ping"] := by
  decide

/-- C17 (amended): in every reachable state `sendMessage` hands a frame to the
socket exactly when a socket exists and `isConnected` is true, and is a silent
no-op otherwise. It always transmits when the status is `connected`, never when
it is `disconnected`, and whenever it transmits the status is `connected` or
`error`. -/
theorem ws_send_gated_by_isConnected (constructed : Bool) (events : List WsEvent)
    (frame : String) :
    ((wsRun constructed events).hasSocket = true ∧
          (wsRun constructed events).isConnected = true →
        (wsSendMessage (wsRun constructed events) frame).sent =
          (wsRun constructed events).sent ++ [frame]) ∧
      (¬ ((wsRun constructed events).hasSocket = true ∧
            (wsRun constructed events).isConnected = true) →
        wsSendMessage (wsRun constructed events) frame = wsRun constructed events) ∧
      ((wsRun constructed events).connectionStatus = "connected" →
        (wsSendMessage (wsRun constructed events) frame).sent =
          (wsRun constructed events).sent ++ [frame]) ∧
      ((wsRun constructed events).connectionStatus = "disconnected" →
        wsSendMessage (wsRun constructed events) frame = wsRun constructed events) ∧
      ((wsSendMessage (wsRun constructed events) frame).sent ≠
          (wsRun constructed events).sent →
        (wsRun constructed events).connectionStatus = "connected" ∨
          (wsRun constructed events).connectionStatus = "error") := by
  obtain ⟨h1, h2⟩ := wsInv_run constructed events
  generalize wsRun constructed events = s at h1 h2
  have hyes : s.hasSocket = true ∧ s.isConnected = true →
      (wsSendMessage s frame).sent = s.sent ++ [frame] := by
    intro h
    simp [wsSendMessage, h.1, h.2]
  have hno : ¬ (s.hasSocket = true ∧ s.isConnected = true) → wsSendMessage s frame = s := by
    intro h
    have hb : (s.hasSocket && s.isConnected) = false := by
      cases hs : s.hasSocket <;> cases hc : s.isConnected <;> simp_all
    simp [wsSendMessage, hb]
  refine ⟨hyes, hno, ?_, ?_, ?_⟩
  · intro hst
    exact hyes ⟨(h1 (h2 hst)).1, h2 hst⟩
  · intro hst
    apply hno
    intro hc
    rcases (h1 hc.2).2 with h | h
    · rw [hst] at h
      exact absurd h (by decide)
    · rw [hst] at h
      exact absurd h (by decide)
  · intro hne
    by_cases hc : s.hasSocket = true ∧ s.isConnected = true
    · exact (h1 hc.2).2
    · rw [hno hc] at hne
      exact absurd rfl hne

theorem ws_send_gated_by_isConnected_witness :
    ((wsRun true [WsEvent.open]).connectionStatus = "connected" ∧
        (wsSendMessage (wsRun true [WsEvent.open]) "ping").sent =
          (wsRun true [WsEvent.open]).sent ++ ["ping"]) ∧
      ((wsRun true [WsEvent.open, WsEvent.close]).connectionStatus = "disconnected" ∧
        wsSendMessage (wsRun true [WsEvent.open, WsEvent.close]) "ping" =
          wsRun true [WsEvent.open, WsEvent.close]) :=
  ⟨⟨by decide, (ws_send_gated_by_isConnected true [WsEvent.open] "ping").2.2.1 (by decide)⟩,
    ⟨by decide,
      (ws_send_gated_by_isConnected true [WsEvent.open, WsEvent.close] "ping").2.2.2.1
        (by decide)⟩⟩

/-! ## Failure kinds and notifications -/

theorem filter_ne_id_middle (before after : List Message) (m : Message)
    (hbefore : ∀ x ∈ before, x.id ≠ m.id) (hafter : ∀ x ∈ after, x.id ≠ m.id) :
    (before ++ m :: after).filter (fun msg => msg.id != m.id) = before ++ after := by
  have h1 : before.filter (fun msg => msg.id != m.id) = before := by
    rw [List.filter_eq_self]
    intro x hx
    simpa using hbefore x hx
  have h2 : after.filter (fun msg => msg.id != m.id) = after := by
    rw [List.filter_eq_self]
    intro x hx
    simpa using hafter x hx
  rw [List.filter_append, List.filter_cons, h1, h2]
  simp

/-- C21 (as stated, refuted): a timeout, a 401 and a 500, none with a detail,
make `sendChatMessage` reject with one and the same error, so the caller
cannot tell the three kinds apart from it. -/
theorem failure_kinds_indistinguishable :
    (sendChatMessage sampleClient "Hello" none (.error timeoutError)).2 =
        .error { message := "Failed to send message" } ∧
      (sendChatMessage sampleClient "Hello" none (.error (statusError 401))).2 =
        (sendChatMessage sampleClient "Hello" none (.error timeoutError)).2 ∧
      (sendChatMessage sampleClient "Hello" none (.error (statusError 500))).2 =
        (sendChatMessage sampleClient "Hello" none (.error timeoutError)).2 := by
  simp only [sendChatMessage, catchAndWrap_error]
  refine ⟨rfl, rfl, rfl⟩

/-- C21 (amended): a failed chat request is rejected to the caller as a plain
`Error` carrying nothing but its message, the server detail when non-empty and
the operation's generic text otherwise; two failures that yield the same
message, whatever their kind and status, reject with the same error. -/
theorem thrown_error_carries_message_only (c c' : Client) (text : String)
    (cid : Option String) (error error' : AxiosError)
    (hsame : errorMessage error "Failed to send message" =
      errorMessage error' "Failed to send message") :
    (sendChatMessage c text cid (.error error)).2 =
        .error { message := errorMessage error "Failed to send message" } ∧
      (sendChatMessage c text cid (.error error)).2 =
        (sendChatMessage c' text cid (.error error')).2 := by
  simp only [sendChatMessage, catchAndWrap_error, hsame]
  exact ⟨trivial, trivial⟩

theorem thrown_error_carries_message_only_witness :
    errorMessage timeoutError "Failed to send message" =
        errorMessage (statusError 503) "Failed to send message" ∧
      (sendChatMessage sampleClient "Hello" none (.error timeoutError)).2 =
        (sendChatMessage sampleClient "Hello" none (.error (statusError 503))).2 :=
  ⟨rfl,
    (thrown_error_carries_message_only sampleClient sampleClient "Hello" none timeoutError
      (statusError 503) rfl).2⟩

/-- C22 (evaluation at the failing input): two sends are in flight with the
distinct optimistic ids 1000 and 1001, and a system message was added in the
millisecond of the first; the first send fails. Its rollback keeps the second
send's user message but also removes the system message. -/
theorem interleaved_rollback_drops_same_id_message :
    interleavedState.messages.map (fun m => (m.id, m.content)) =
        [(1000, "first"), (1000, "Connecting"), (1001, "second")] ∧
      (onError interleavedState { message := "Failed to send message" }
          (userMessageOf "first" 1000 "2024-01-01T00:00:01.000Z")).messages.map
          (fun m => (m.id, m.content)) = [(1001, "second")] := by
  constructor
  · rfl
  · simp [onError, interleavedState, onMutate, addSystemMessage, initialState, userMessageOf]

/-- C23 (as stated, refuted): the DELETE fails with the server detail
`Conversation not found`; the error propagated to the caller carries that
detail, the toast shows the fixed text instead. -/
theorem clear_failure_toast_ignores_detail :
    (clearChat busyState (.error (detailError 404 "Conversation not found"))).2 =
        .error { message := "Conversation not found" } ∧
      (clearChat busyState (.error (detailError 404 "Conversation not found"))).1.toasts =
        [Toast.error "Failed to clear chat history"] ∧
      ¬ Toast.error "Conversation not found" ∈
        (clearChat busyState (.error (detailError 404 "Conversation not found"))).1.toasts := by
  have h2 : (clearChat busyState
      (.error (detailError 404 "Conversation not found"))).1.toasts =
      [Toast.error "Failed to clear chat history"] := by
    simp [clearChat, clearChatHistory, catchAndWrap, apiRequest, clearOnError,
      responseRejected_snd, busyState]
  refine ⟨?_, h2, ?_⟩
  · simp only [clearChat, clearChatHistory, catchAndWrap_error]
    rfl
  · rw [h2]
    decide

/-- C23 (amended): whatever the error, a failed clear raises a toast with the
fixed text `Failed to clear chat history`; the propagated message (server
detail, or the generic fallback) is carried by the rejected error and logged to
the console, not shown. -/
theorem clear_failure_toast_fixed (s : ChatState) (error : AxiosError) :
    (clearChat s (.error error)).1.toasts =
        s.toasts ++ [Toast.error "Failed to clear chat history"] ∧
      (clearChat s (.error error)).2 =
        .error { message := errorMessage error "Failed to clear chat history" } ∧
      ("Clear chat error:", errorMessage error "Failed to clear chat history") ∈
        (clearChat s (.error error)).1.client.console := by
  simp [clearChat, clearChatHistory, catchAndWrap, apiRequest, clearOnError,
    responseRejected_snd]

/-- C24: for a send that passes the non-blank check the busy flag is up in the
pending state, right after the optimistic append, and down once the send has
settled, whether it succeeded or failed. -/
theorem busy_flag_brackets_send (s : ChatState) (message : String) (env : SendEnv)
    (hmsg : jsTrim message ≠ "") :
    (onMutate s message env.mutateNow env.mutateIso).1.isLoading = true ∧
      (onMutate s message env.mutateNow env.mutateIso).1.messages =
        s.messages ++ [userMessageOf message env.mutateNow env.mutateIso] ∧
      (sendMessage s message env).1.isLoading = false := by
  refine ⟨rfl, rfl, ?_⟩
  cases hout : env.outcome with
  | ok r => rw [sendMessage_ok s message env r hmsg hout, onSuccess_isLoading]
  | error e =>
    rw [sendMessage_error s message env e hmsg hout]
    rfl

theorem busy_flag_brackets_send_witness :
    jsTrim "Hello" ≠ "" ∧
      (sendMessage busyState "Hello"
          ⟨5, "2024-01-01T00:00:00.005Z", 9, .error timeoutError⟩).1.isLoading = false ∧
      (sendMessage busyState "Hello"
          ⟨5, "2024-01-01T00:00:00.005Z", 9, .ok citedResponse⟩).1.isLoading = false :=
  ⟨by decide,
    (busy_flag_brackets_send busyState "Hello"
      ⟨5, "2024-01-01T00:00:00.005Z", 9, .error timeoutError⟩ (by decide)).2.2,
    (busy_flag_brackets_send busyState "Hello"
      ⟨5, "2024-01-01T00:00:00.005Z", 9, .ok citedResponse⟩ (by decide)).2.2⟩

/-! ## WebSocket hook, continued -/

/-- C25: in every state the WebSocket hook reaches from its initial state,
status `connected` implies `isConnected`, and `isConnected` implies a status
of `connected` or `error`; the error handler sets the status to `error` and
leaves `isConnected` as it was. -/
theorem ws_status_matches_flag (constructed : Bool) (events : List WsEvent) (s : WsState) :
    ((wsRun constructed events).connectionStatus = "connected" →
        (wsRun constructed events).isConnected = true) ∧
      ((wsRun constructed events).isConnected = true →
        (wsRun constructed events).connectionStatus = "connected" ∨
          (wsRun constructed events).connectionStatus = "error") ∧
      (wsOnError s).isConnected = s.isConnected ∧
      (wsOnError s).connectionStatus = "error" ∧
      wsInitial.isConnected = false ∧ wsInitial.connectionStatus = "disconnected" := by
  obtain ⟨h1, h2⟩ := wsInv_run constructed events
  exact ⟨h2, fun hc => (h1 hc).2, rfl, rfl, rfl, rfl⟩

theorem ws_status_matches_flag_witness :
    ((wsRun true [WsEvent.open, WsEvent.error]).isConnected = true ∧
        ((wsRun true [WsEvent.open, WsEvent.error]).connectionStatus = "connected" ∨
          (wsRun true [WsEvent.open, WsEvent.error]).connectionStatus = "error")) ∧
      ((wsRun true [WsEvent.close, WsEvent.open]).connectionStatus = "connected" ∧
        (wsRun true [WsEvent.close, WsEvent.open]).isConnected = true) :=
  ⟨⟨by decide,
      (ws_status_matches_flag true [WsEvent.open, WsEvent.error] wsInitial).2.1 (by decide)⟩,
    ⟨by decide,
      (ws_status_matches_flag true [WsEvent.close, WsEvent.open] wsInitial).1 (by decide)⟩⟩

/-! ## Editing the message list -/

/-- C26: `removeMessage(id)` leaves a sublist of the old list with no message
of that id and with every message of another id kept as often as before;
doing it twice is doing it once; with no message of that id nothing changes. -/
theorem remove_message_by_id (s : ChatState) (messageId : Int) :
    (∀ m ∈ (removeMessage s messageId).messages, m.id ≠ messageId) ∧
      (removeMessage s messageId).messages.Sublist s.messages ∧
      (∀ m : Message, m.id ≠ messageId →
        (removeMessage s messageId).messages.count m = s.messages.count m) ∧
      removeMessage (removeMessage s messageId) messageId = removeMessage s messageId ∧
      ((∀ m ∈ s.messages, m.id ≠ messageId) → removeMessage s messageId = s) := by
  refine ⟨?_, ?_, ?_, ?_, ?_⟩
  · intro m hm
    simp only [removeMessage, List.mem_filter, bne_iff_ne, ne_eq] at hm
    exact hm.2
  · exact List.filter_sublist _
  · intro m hm
    simp only [removeMessage]
    apply List.count_filter
    simpa using hm
  · simp [removeMessage, List.filter_filter]
  · intro hnone
    have hfilter : s.messages.filter (fun msg => msg.id != messageId) = s.messages := by
      rw [List.filter_eq_self]
      intro m hm
      simpa using hnone m hm
    simp [removeMessage, hfilter]

theorem remove_message_by_id_witness :
    (∀ m ∈ busyState.messages, m.id ≠ 7) ∧ removeMessage busyState 7 = busyState :=
  ⟨by decide, (remove_message_by_id busyState 7).2.2.2.2 (by decide)⟩

/-- C27: `updateMessage(id, updates)` keeps the length of the list and every
position: a message with another id stays as it is, a message with that id is
replaced by itself with the fields of `updates` laid over its own (each field
the update carries takes the update's value, each field it does not carry
keeps the message's value); with an id no message holds nothing changes. -/
theorem update_message_by_id (s : ChatState) (messageId : Int) (updates : MessageUpdates)
    (i : Nat) :
    (updateMessage s messageId updates).messages.length = s.messages.length ∧
      (∀ m, s.messages[i]? = some m → m.id ≠ messageId →
        (updateMessage s messageId updates).messages[i]? = some m) ∧
      (∀ m, s.messages[i]? = some m → m.id = messageId →
        (updateMessage s messageId updates).messages[i]? =
          some (applyUpdates m updates)) ∧
      (∀ m, s.messages[i]? = some m → m.id = messageId →
        ∃ replaced : Message,
          (updateMessage s messageId updates).messages[i]? = some replaced ∧
            (∀ v, updates.id = some v → replaced.id = v) ∧
            (updates.id = none → replaced.id = m.id) ∧
            (∀ v, updates.content = some v → replaced.content = v) ∧
            (updates.content = none → replaced.content = m.content) ∧
            (∀ v, updates.message_type = some v → replaced.message_type = v) ∧
            (updates.message_type = none → replaced.message_type = m.message_type) ∧
            (∀ v, updates.timestamp = some v → replaced.timestamp = v) ∧
            (updates.timestamp = none → replaced.timestamp = m.timestamp) ∧
            (∀ v, updates.sources = some v → replaced.sources = v) ∧
            (updates.sources = none → replaced.sources = m.sources) ∧
            (∀ v, updates.confidence = some v → replaced.confidence = v) ∧
            (updates.confidence = none → replaced.confidence = m.confidence)) ∧
      ((∀ m ∈ s.messages, m.id ≠ messageId) → updateMessage s messageId updates = s) := by
  refine ⟨?_, ?_, ?_, ?_, ?_⟩
  · simp [updateMessage]
  · intro m hm hne
    simp [updateMessage, List.getElem?_map, hm, hne]
  · intro m hm heq
    simp [updateMessage, List.getElem?_map, hm, heq]
  · intro m hm heq
    refine ⟨applyUpdates m updates, ?_, ?_, ?_, ?_, ?_, ?_, ?_, ?_, ?_, ?_, ?_, ?_, ?_⟩
    · simp [updateMessage, List.getElem?_map, hm, heq]
    all_goals
      intros
      simp [applyUpdates, *]
  · intro hnone
    have hmap : s.messages.map
        (fun msg => if msg.id = messageId then applyUpdates msg updates else msg) =
        s.messages := by
      conv_rhs => rw [← List.map_id s.messages]
      apply List.map_congr_left
      intro m hm
      simp [hnone m hm]
    simp [updateMessage, hmap]

theorem update_message_by_id_witness :
    (busyState.messages[1]? = some (aiMessageOf (sampleResponse "T") 2) ∧
        (aiMessageOf (sampleResponse "T") 2).id = 3) ∧
      (updateMessage busyState 3 { content := some "Hello again" }).messages[1]? =
        some (applyUpdates (aiMessageOf (sampleResponse "T") 2)
          { content := some "Hello again" }) ∧
      (updateMessage busyState 3 { content := some "Hello again" }).messages =
        [userMessageOf "Hello" 1 "2024-01-01T00:00:00.001Z",
         { id := 3, content := "Hello again", message_type := "bot", timestamp := "T",
           sources := some [], confidence := none }] :=
  ⟨⟨rfl, rfl⟩,
    (update_message_by_id busyState 3 { content := some "Hello again" } 1).2.2.1
      (aiMessageOf (sampleResponse "T") 2) rfl rfl,
    by decide⟩

/-! ## Clear, continued -/

/-- C28: with no conversation established `clearChat` still issues its request,
a `delete` whose path is `/chat/history/null`, whatever the outcome. -/
theorem clear_without_conversation_hits_null_path (s : ChatState)
    (outcome : Except AxiosError Unit) (hnull : s.conversationId = none) :
    ∃ request : RequestConfig,
      (clearChat s outcome).1.client.requests = s.client.requests ++ [request] ∧
        request.method = "delete" ∧ request.url = "/chat/history/null" := by
  refine ⟨requestInterceptor s.client
    { method := "delete", url := "/chat/history/null", data := Body.empty,
      headers := defaultHeaders }, ?_, (requestInterceptor_fields _ _).1,
    (requestInterceptor_fields _ _).2.1⟩
  have hurl : "/chat/history/" ++ interpolate (none : Option String) = "/chat/history/null" := by
    decide
  cases outcome with
  | ok u =>
    simp [clearChat, clearChatHistory, catchAndWrap, apiRequest, clearOnSuccess, hnull, hurl]
  | error e =>
    simp [clearChat, clearChatHistory, catchAndWrap, apiRequest, clearOnError, hnull, hurl,
      responseRejected_requests]

theorem clear_without_conversation_hits_null_path_witness :
    (initialState sampleClient).conversationId = none ∧
      ∃ request : RequestConfig,
        (clearChat (initialState sampleClient) (.ok ())).1.client.requests =
          (initialState sampleClient).client.requests ++ [request] ∧
          request.method = "delete" ∧ request.url = "/chat/history/null" :=
  ⟨rfl, clear_without_conversation_hits_null_path (initialState sampleClient) (.ok ()) rfl⟩

/-! ## News dashboard -/

theorem lookup_setCount_self (acc : List (String × Nat)) (key : String) (value : Nat) :
    (setCount acc key value).lookup key = some value := by
  induction acc with
  | nil => simp [setCount, List.lookup_cons]
  | cons entry rest ih =>
    obtain ⟨k, v⟩ := entry
    unfold setCount
    by_cases h : k = key
    · simp [h, List.lookup_cons]
    · have h2 : (key == k) = false := by
        simp only [beq_eq_false_iff_ne, ne_eq]
        exact fun e => h e.symm
      simp only [beq_iff_eq, h, if_false, List.lookup_cons, h2]
      exact ih

theorem lookup_setCount_other (acc : List (String × Nat)) (key other : String) (value : Nat)
    (hne : other ≠ key) :
    (setCount acc key value).lookup other = acc.lookup other := by
  have hb : (other == key) = false := by
    simp only [beq_eq_false_iff_ne, ne_eq]
    exact hne
  induction acc with
  | nil => simp [setCount, List.lookup_cons, hb]
  | cons entry rest ih =>
    obtain ⟨k, v⟩ := entry
    unfold setCount
    by_cases h : k = key
    · subst h
      simp [List.lookup_cons, hb]
    · simp only [beq_iff_eq, h, if_false, List.lookup_cons]
      rw [ih]

theorem counter_countSentiment_self (acc : List (String × Nat)) (article : Article) :
    counter (countSentiment acc article) article.sentiment =
      counter acc article.sentiment + 1 := by
  simp [counter, countSentiment, lookup_setCount_self]

theorem counter_countSentiment_other (acc : List (String × Nat)) (article : Article)
    (key : String) (hne : key ≠ article.sentiment) :
    counter (countSentiment acc article) key = counter acc key := by
  unfold counter countSentiment
  rw [lookup_setCount_other _ _ _ _ hne]

theorem counters_after_one (acc : List (String × Nat)) (article : Article)
    (hknown : article.sentiment ∈ ["positive", "negative", "neutral"]) :
    counter (countSentiment acc article) "positive" +
        counter (countSentiment acc article) "negative" +
        counter (countSentiment acc article) "neutral" =
      counter acc "positive" + counter acc "negative" + counter acc "neutral" + 1 := by
  simp only [List.mem_cons, List.mem_singleton, List.mem_nil_iff, or_false] at hknown
  rcases hknown with h | h | h
  · have hp := counter_countSentiment_self acc article
    have hn := counter_countSentiment_other acc article "negative" (by rw [h]; decide)
    have hu := counter_countSentiment_other acc article "neutral" (by rw [h]; decide)
    rw [h] at hp
    omega
  · have hp := counter_countSentiment_self acc article
    have hn := counter_countSentiment_other acc article "positive" (by rw [h]; decide)
    have hu := counter_countSentiment_other acc article "neutral" (by rw [h]; decide)
    rw [h] at hp
    omega
  · have hp := counter_countSentiment_self acc article
    have hn := counter_countSentiment_other acc article "positive" (by rw [h]; decide)
    have hu := counter_countSentiment_other acc article "negative" (by rw [h]; decide)
    rw [h] at hp
    omega

theorem counters_after_all (articles : List Article) :
    ∀ acc : List (String × Nat),
      (∀ a ∈ articles, a.sentiment ∈ ["positive", "negative", "neutral"]) →
      counter (articles.foldl countSentiment acc) "positive" +
          counter (articles.foldl countSentiment acc) "negative" +
          counter (articles.foldl countSentiment acc) "neutral" =
        counter acc "positive" + counter acc "negative" + counter acc "neutral" +
          articles.length := by
  induction articles with
  | nil =>
    intro acc _
    simp
  | cons a rest ih =>
    intro acc hall
    rw [List.foldl_cons,
      ih (countSentiment acc a) (fun x hx => hall x (List.mem_cons_of_mem _ hx)),
      counters_after_one acc a (hall a (List.mem_cons_self _ _)), List.length_cons]
    omega

theorem mockNews_sentiments :
    ∀ a ∈ mockNews, a.sentiment ∈ ["positive", "negative", "neutral"] := by
  decide

/-- C29: for every query and category the filtered list is a sublist of the
catalogue, in catalogue order, holding exactly the articles whose lower-cased
title or description contains the lower-cased query and whose category is the
selected one (or the selection is `all`); the three sentiment counters add up
to its length; with an empty query and `all` it is the whole catalogue. -/
theorem news_filter_and_counters (toLowerCase : String → String)
    (searchQuery selectedCategory : String) :
    (filteredNews toLowerCase searchQuery selectedCategory).Sublist mockNews ∧
      (∀ article : Article,
        article ∈ filteredNews toLowerCase searchQuery selectedCategory ↔
          article ∈ mockNews ∧
            (includes (toLowerCase article.title) (toLowerCase searchQuery) = true ∨
              includes (toLowerCase article.description) (toLowerCase searchQuery) = true) ∧
            (selectedCategory = "all" ∨ article.category = selectedCategory)) ∧
      counter (sentimentStats (filteredNews toLowerCase searchQuery selectedCategory))
            "positive" +
          counter (sentimentStats (filteredNews toLowerCase searchQuery selectedCategory))
            "negative" +
          counter (sentimentStats (filteredNews toLowerCase searchQuery selectedCategory))
            "neutral" =
        (filteredNews toLowerCase searchQuery selectedCategory).length ∧
      (toLowerCase "" = "" → filteredNews toLowerCase "" "all" = mockNews) := by
  refine ⟨List.filter_sublist _, ?_, ?_, ?_⟩
  · intro article
    simp only [filteredNews, List.mem_filter, matchesArticle, Bool.and_eq_true,
      Bool.or_eq_true, beq_iff_eq]
  · have hall : ∀ a ∈ filteredNews toLowerCase searchQuery selectedCategory,
        a.sentiment ∈ ["positive", "negative", "neutral"] := by
      intro a ha
      exact mockNews_sentiments a (List.mem_of_mem_filter ha)
    have hzero : counter [("positive", 0), ("negative", 0), ("neutral", 0)] "positive" +
        counter [("positive", 0), ("negative", 0), ("neutral", 0)] "negative" +
        counter [("positive", 0), ("negative", 0), ("neutral", 0)] "neutral" = 0 := by
      decide
    unfold sentimentStats
    rw [counters_after_all _ _ hall, hzero]
    omega
  · intro hempty
    unfold filteredNews
    rw [List.filter_eq_self]
    intro a _
    simp [matchesArticle, includes, hempty, List.nil_infix]

theorem news_filter_and_counters_witness :
    asciiLower "" = "" ∧ filteredNews asciiLower "" "all" = mockNews ∧
      (filteredNews asciiLower "OIL" "energy").Sublist mockNews :=
  ⟨by decide, (news_filter_and_counters asciiLower "" "all").2.2.2 (by decide),
    (news_filter_and_counters asciiLower "OIL" "energy").1⟩

/-! ## Date helpers -/

/-- C30: the date helpers always return a string: the empty string for a
missing input (`null`, `undefined`, `''`), the empty string whenever the
library call throws, which it does for an input that is not a valid date, and
the library's text otherwise; `formatDateTime(d)` is
`formatDate(d, 'yyyy-MM-dd HH:mm:ss')`. -/
theorem date_helpers_total (lib : DateFns) (parseText : String → Option Int) (now : Int)
    (value : DateArg) (formatString : Option String)
    (hthrow : ∀ pattern, ∃ thrown, lib.format none pattern = .error thrown) :
    (isFalsy value = true →
        (formatTimestamp lib parseText now value).1 = "" ∧
          (formatDate lib parseText value formatString).1 = "" ∧
          (formatDateTime lib parseText value).1 = "") ∧
      (isFalsy DateArg.null = true ∧ isFalsy DateArg.undefined = true ∧
        isFalsy (DateArg.text "") = true) ∧
      (newDate parseText value = none →
        (formatTimestamp lib parseText now value).1 = "" ∧
          (formatDate lib parseText value formatString).1 = "" ∧
          (formatDateTime lib parseText value).1 = "") ∧
      ((formatTimestamp lib parseText now value).1 = "" ∨
        lib.formatDistanceToNow (newDate parseText value) now =
          .ok (formatTimestamp lib parseText now value).1 ∨
        lib.format (newDate parseText value) "MMM d, yyyy HH:mm" =
          .ok (formatTimestamp lib parseText now value).1) ∧
      ((formatDate lib parseText value formatString).1 = "" ∨
        lib.format (newDate parseText value) (formatString.getD "yyyy-MM-dd") =
          .ok (formatDate lib parseText value formatString).1) ∧
      formatDateTime lib parseText value =
        formatDate lib parseText value (some "yyyy-MM-dd HH:mm:ss") := by
  refine ⟨?_, ⟨rfl, rfl, rfl⟩, ?_, ?_, ?_, rfl⟩
  · intro hf
    simp [formatTimestamp, formatDate, formatDateTime, hf]
  · intro hinvalid
    by_cases hf : isFalsy value = true
    · simp [formatTimestamp, formatDate, formatDateTime, hf]
    · obtain ⟨t1, h1⟩ := hthrow "MMM d, yyyy HH:mm"
      obtain ⟨t2, h2⟩ := hthrow (formatString.getD "yyyy-MM-dd")
      obtain ⟨t3, h3⟩ := hthrow "yyyy-MM-dd HH:mm:ss"
      simp [formatTimestamp, formatDate, formatDateTime, hf, hinvalid, withinDay, h1, h2, h3]
  · by_cases hf : isFalsy value = true
    · left
      simp [formatTimestamp, hf]
    · by_cases hw : withinDay now (newDate parseText value) = true
      · cases hr : lib.formatDistanceToNow (newDate parseText value) now with
        | ok text =>
          right
          left
          simp [formatTimestamp, hf, hw, hr]
        | error thrown =>
          left
          simp [formatTimestamp, hf, hw, hr]
      · cases hr : lib.format (newDate parseText value) "MMM d, yyyy HH:mm" with
        | ok text =>
          right
          right
          simp [formatTimestamp, hf, hw, hr]
        | error thrown =>
          left
          simp [formatTimestamp, hf, hw, hr]
  · by_cases hf : isFalsy value = true
    · left
      simp [formatDate, hf]
    · cases hr : lib.format (newDate parseText value) (formatString.getD "yyyy-MM-dd") with
      | ok text =>
        right
        simp [formatDate, hf, hr]
      | error thrown =>
        left
        simp [formatDate, hf, hr]

theorem date_helpers_total_witness :
    (∀ pattern, ∃ thrown, sampleDateFns.format none pattern = .error thrown) ∧
      newDate sampleParse (DateArg.text "next tuesday") = none ∧
      (formatTimestamp sampleDateFns sampleParse 1722769200000
        (DateArg.text "next tuesday")).1 = "" ∧
      (formatDate sampleDateFns sampleParse DateArg.undefined none).1 = "" :=
  ⟨fun _ => ⟨"Invalid time value", rfl⟩, by decide,
    ((date_helpers_total sampleDateFns sampleParse 1722769200000
      (DateArg.text "next tuesday") none (fun _ => ⟨"Invalid time value", rfl⟩)).2.2.1
      (by decide)).1,
    ((date_helpers_total sampleDateFns sampleParse 1722769200000 DateArg.undefined none
      (fun _ => ⟨"Invalid time value", rfl⟩)).1 rfl).2.1⟩

end FinanceChat
